import Mathlib

/-!
Verification development for the ElSol-Challenge medical-conversation indexing
core. The Python sources under src/services/transcription_service.py,
src/database/vector_store_service.py, src/database/patient_service.py and
src/database/search_service.py are shallowly embedded below: pure functions
become Lean functions on String / List Char, the Chroma collections become
association lists threaded explicitly, and the metadata dictionaries become
structures together with an explicit key-value rendering. Wall-clock values
(datetime.now) and the md5 hex digest are threaded as parameters, since the
code uses them only as opaque deterministic strings.
-/

namespace ElSol

/-! ## Python json, restricted to lists of strings

The program serializes list-valued medical fields with json.dumps (default
separators, ensure_ascii=True) and reads them back with json.loads. Only
lists of strings are ever stored, so the embedding models exactly that
fragment: dumps renders a list of strings, loads parses a JSON array of
strings (returning none on any other document).
-/

/-- Whitespace characters skipped by the JSON parser. -/
def isJsonWs (c : Char) : Bool :=
  c = ' ' || c = '\t' || c = '\n' || c = '\r'

/-- Lower-case hex digit for a value below 16, as produced by the %04x
format used by json.dumps for non-ASCII escapes. -/
def hexDigitChar (n : Nat) : Char :=
  if n < 10 then Char.ofNat (48 + n) else Char.ofNat (97 + (n - 10))

/-- Numeric value of a hex digit; json.loads accepts both cases. -/
def hexVal (c : Char) : Option Nat :=
  if 48 ≤ c.toNat ∧ c.toNat ≤ 57 then some (c.toNat - 48)
  else if 97 ≤ c.toNat ∧ c.toNat ≤ 102 then some (c.toNat - 97 + 10)
  else if 65 ≤ c.toNat ∧ c.toNat ≤ 70 then some (c.toNat - 65 + 10)
  else none

/-- Four lower-case hex digits of a value below 0x10000. -/
def hex4 (n : Nat) : List Char :=
  [hexDigitChar (n / 4096 % 16), hexDigitChar (n / 256 % 16),
   hexDigitChar (n / 16 % 16), hexDigitChar (n % 16)]

/-- Escape of one character inside a JSON string literal, following
json.dumps with ensure_ascii=True: named two-character escapes for the
characters in ESCAPE_DCT, the character itself for printable ASCII, and
a backslash-u escape (with a surrogate pair above the BMP) otherwise. -/
def escapeChar (c : Char) : List Char :=
  if c = '"' then ['\\', '"']
  else if c = '\\' then ['\\', '\\']
  else if c = '\n' then ['\\', 'n']
  else if c = '\r' then ['\\', 'r']
  else if c = '\t' then ['\\', 't']
  else if c = '\x08' then ['\\', 'b']
  else if c = '\x0c' then ['\\', 'f']
  else if 32 ≤ c.toNat ∧ c.toNat ≤ 126 then [c]
  else if c.toNat < 65536 then '\\' :: 'u' :: hex4 c.toNat
  else
    ('\\' :: 'u' :: hex4 (55296 + (c.toNat - 65536) / 1024)) ++
    ('\\' :: 'u' :: hex4 (56320 + (c.toNat - 65536) % 1024))

/-- JSON string literal for a character list, quotes included. -/
def encodeStr (s : List Char) : List Char :=
  '"' :: s.flatMap escapeChar ++ ['"']

/-- Body of the array produced by json.dumps: elements joined by the
default ", " separator. -/
def dumpsBody : List (List Char) → List Char
  | [] => []
  | [s] => encodeStr s
  | s :: t :: rest => encodeStr s ++ ',' :: ' ' :: dumpsBody (t :: rest)

/-- Serialization of a list of strings, as json.dumps produces it
(store_patient_data stores symptoms, medications, allergies and chronic
conditions through this function). -/
def dumps (L : List String) : String :=
  ⟨'[' :: dumpsBody (L.map String.data) ++ [']']⟩

/-- Combined value of four hex digits. -/
def decodeHex4 (a b c d : Char) : Option Nat :=
  match hexVal a, hexVal b, hexVal c, hexVal d with
  | some x, some y, some z, some w => some (((x * 16 + y) * 16 + z) * 16 + w)
  | _, _, _, _ => none

/-- Continuation of a backslash-u escape that opened with a high
surrogate value: json.loads then requires a second backslash-u escape
holding a low surrogate and combines the pair into one code point. -/
def parsePair (n : Nat) (r2 : List Char) : Option (Char × List Char) :=
  match r2 with
  | b :: u :: g1 :: g2 :: g3 :: g4 :: r3 =>
    if b = '\\' ∧ u = 'u' then
      match decodeHex4 g1 g2 g3 g4 with
      | none => none
      | some m =>
        if 56320 ≤ m ∧ m ≤ 57343 then
          some (Char.ofNat (65536 + (n - 55296) * 1024 + (m - 56320)), r3)
        else none
    else none
  | _ => none

/-- Decoding of a backslash-u escape given its four hex digits: either a
plain BMP scalar value or the start of a surrogate pair. A lone surrogate
has no Char counterpart, so it is rejected. -/
def parseU (h1 h2 h3 h4 : Char) (r2 : List Char) : Option (Char × List Char) :=
  match decodeHex4 h1 h2 h3 h4 with
  | none => none
  | some n =>
    if 55296 ≤ n ∧ n ≤ 56319 then parsePair n r2
    else if n < 55296 ∨ 57343 < n then some (Char.ofNat n, r2)
    else none

/-- Decoding of one escape sequence after the backslash, following the
escape table of json.loads. -/
def parseEsc : List Char → Option (Char × List Char)
  | [] => none
  | e :: r =>
    if e = '"' then some ('"', r)
    else if e = '\\' then some ('\\', r)
    else if e = '/' then some ('/', r)
    else if e = 'n' then some ('\n', r)
    else if e = 'r' then some ('\r', r)
    else if e = 't' then some ('\t', r)
    else if e = 'b' then some ('\x08', r)
    else if e = 'f' then some ('\x0c', r)
    else if e = 'u' then
      match r with
      | h1 :: h2 :: h3 :: h4 :: r2 => parseU h1 h2 h3 h4 r2
      | _ => none
    else none

/-- Parser for the body of a JSON string literal (opening quote already
consumed), fuel-indexed so the recursion is structural. Returns the
decoded characters and the input remaining after the closing quote.
Raw control characters are rejected as in strict-mode json.loads. -/
def parseStrF : Nat → List Char → Option (List Char × List Char)
  | 0, _ => none
  | _ + 1, [] => none
  | fuel + 1, c :: rest =>
    if c = '"' then some ([], rest)
    else if c = '\\' then
      match parseEsc rest with
      | none => none
      | some (d, rest2) => (fun p => (d :: p.1, p.2)) <$> parseStrF fuel rest2
    else if c.toNat < 32 then none
    else (fun p => (c :: p.1, p.2)) <$> parseStrF fuel rest

/-- Skip JSON whitespace. -/
def skipWs (l : List Char) : List Char :=
  l.dropWhile isJsonWs

/-- Handling of the input following one parsed array element: either a
comma and a further element (parsed by the supplied recursive call) or
the closing bracket. -/
def parseTail (recurse : List Char → Option (List (List Char) × List Char))
    (s : List Char) (r2 : List Char) : Option (List (List Char) × List Char) :=
  match skipWs r2 with
  | [] => none
  | d :: r3 =>
    if d = ',' then
      match recurse r3 with
      | some (ss, r4) => some (s :: ss, r4)
      | none => none
    else if d = ']' then some ([s], r3)
    else none

/-- Parser for the comma-separated string elements of a non-empty JSON
array, up to and including the closing bracket. -/
def parseItemsF : Nat → List Char → Option (List (List Char) × List Char)
  | 0, _ => none
  | fuel + 1, l =>
    match skipWs l with
    | [] => none
    | c :: r =>
      if c = '"' then
        match parseStrF (r.length + 1) r with
        | none => none
        | some (s, r2) => parseTail (fun l3 => parseItemsF fuel l3) s r2
      else none

/-- Deserialization of a JSON array of strings, as json.loads behaves on
the documents this program stores (get_patient_summary reads the
symptoms_list and medications_list metadata through this function).
Any document outside that fragment yields none, which models the
ValueError branch. -/
def loads (s : String) : Option (List String) :=
  match skipWs s.data with
  | [] => none
  | c :: r =>
    if c = '[' then
      match skipWs r with
      | [] => none
      | d :: r2 =>
        if d = ']' then (if skipWs r2 = [] then some [] else none)
        else
          match parseItemsF (r.length + 1) r with
          | some (ss, r3) => if skipWs r3 = [] then some (ss.map (⟨·⟩)) else none
          | none => none
    else none

/-! ## Text utilities underlying the Python string and regex operations

The extraction code works on text.lower() with unicode-aware regexes.
The embedding models str.lower, str.title, str.strip, str.split and the
word/space character classes for ASCII plus the Spanish letters that
occur in this program and its keyword tables.
-/

/-- Python str.lower for ASCII and the accented Spanish letters. -/
def lowerChar (c : Char) : Char :=
  if 65 ≤ c.toNat ∧ c.toNat ≤ 90 then Char.ofNat (c.toNat + 32)
  else if c = 'Á' then 'á'
  else if c = 'É' then 'é'
  else if c = 'Í' then 'í'
  else if c = 'Ó' then 'ó'
  else if c = 'Ú' then 'ú'
  else if c = 'Ü' then 'ü'
  else if c = 'Ñ' then 'ñ'
  else c

/-- Lower-casing of a character list (text.lower()). -/
def lowerStr (l : List Char) : List Char := l.map lowerChar

/-- Accented letters treated as word characters and cased letters. -/
def accentedLetters : List Char :=
  ['á', 'é', 'í', 'ó', 'ú', 'ü', 'ñ', 'Á', 'É', 'Í', 'Ó', 'Ú', 'Ü', 'Ñ']

/-- Python regex word character (backslash-w) over the alphabet used by
this program: ASCII alphanumerics, underscore and the Spanish letters. -/
def isWordChar (c : Char) : Bool :=
  c.isAlphanum || c = '_' || accentedLetters.contains c

/-- Python regex whitespace (backslash-s). -/
def isSpacePy (c : Char) : Bool :=
  c = ' ' || c = '\t' || c = '\n' || c = '\x0d' || c = '\x0c' || c = '\x0b'

/-- Letters, for the cased-character test of str.title. -/
def isLetterPy (c : Char) : Bool :=
  c.isAlpha || accentedLetters.contains c

/-- Python str.upper on one character, inverse companion of lowerChar. -/
def upperChar (c : Char) : Char :=
  if 97 ≤ c.toNat ∧ c.toNat ≤ 122 then Char.ofNat (c.toNat - 32)
  else if c = 'á' then 'Á'
  else if c = 'é' then 'É'
  else if c = 'í' then 'Í'
  else if c = 'ó' then 'Ó'
  else if c = 'ú' then 'Ú'
  else if c = 'ü' then 'Ü'
  else if c = 'ñ' then 'Ñ'
  else c

/-- Worker for str.title: a letter is upper-cased when the previous
character is not a letter, lower-cased otherwise. -/
def titleAux : Bool → List Char → List Char
  | _, [] => []
  | prevCased, c :: t =>
    if isLetterPy c then (if prevCased then lowerChar c else upperChar c) :: titleAux true t
    else c :: titleAux false t

/-- Python str.title. -/
def titlePy (l : List Char) : List Char := titleAux false l

/-- Python str.strip with no arguments (whitespace on both ends). -/
def stripPy (l : List Char) : List Char :=
  ((l.dropWhile isSpacePy).reverse.dropWhile isSpacePy).reverse

/-- Worker for str.split with no arguments, fuel-indexed. -/
def splitWsF : Nat → List Char → List (List Char)
  | 0, _ => []
  | fuel + 1, l =>
    match l.dropWhile isSpacePy with
    | [] => []
    | c :: t =>
      let p := (c :: t).span (fun x => !isSpacePy x)
      p.1 :: splitWsF fuel p.2

/-- Python str.split with no arguments: maximal non-whitespace runs. -/
def splitWs (l : List Char) : List (List Char) := splitWsF (l.length + 1) l

/-- Prefix test on character lists. -/
def hasPre : List Char → List Char → Bool
  | [], _ => true
  | _ :: _, [] => false
  | a :: as, b :: bs => a = b && hasPre as bs

/-- Substring containment, the semantics of the Python `in` operator on
strings and of the regex literal search the extraction code relies on. -/
def containsSub (needle : List Char) : List Char → Bool
  | [] => needle.isEmpty
  | l@(_ :: t) => hasPre needle l || containsSub needle t

/-- Python `needle in haystack` on strings. -/
def strIn (needle haystack : String) : Bool := containsSub needle.data haystack.data

/-- Value of a run of decimal digits, the int() conversion applied to a
regex digit group. -/
def digitsToNat (l : List Char) : Nat := l.foldl (fun a c => a * 10 + (c.toNat - 48)) 0

/-! ## Entity Extractor (TranscriptionService.extract_patient_info)

The regex patterns of the source are compiled by hand into scanning
functions with the leftmost-match and greedy-quantifier semantics of
re.search. The conversation id and the timestamps come from the wall
clock, so extract_patient_info takes them as parameters (spec 4.1 makes
this generator injectable).
-/

/-- Keyword table of _extract_symptoms: category, synonym keywords. -/
def symptomsKeywords : List (String × List String) :=
  [("fiebre", ["fiebre", "temperatura alta", "calor"]),
   ("dolor de cabeza", ["dolor de cabeza", "migraña", "cefalea"]),
   ("tos", ["tos", "tos seca", "tos con flema"]),
   ("dolor de garganta", ["dolor de garganta", "irritación de garganta"]),
   ("náuseas", ["náuseas", "nauseas", "ganas de vomitar"]),
   ("vómitos", ["vómitos", "vomitos", "vomitar"]),
   ("diarrea", ["diarrea", "dolor de estómago"]),
   ("fatiga", ["fatiga", "cansancio", "agotamiento"]),
   ("dolor muscular", ["dolor muscular", "dolores en el cuerpo"]),
   ("pérdida de apetito", ["pérdida de apetito", "no tengo hambre"]),
   ("dificultad para respirar", ["dificultad para respirar", "falta de aire"]),
   ("dolor en el pecho", ["dolor en el pecho", "dolor de pecho"])]

/-- Model of _extract_symptoms: a category is reported when any of its synonym
keywords occurs in the lower-cased text; table order is kept. -/
def extract_symptoms (text : String) : List String :=
  let textLower := lowerStr text.data
  (symptomsKeywords.filter
    (fun kv => kv.2.any (fun k => containsSub k.data textLower))).map (fun kv => kv.1)

/-- Keyword list of _extract_medications. -/
def medicationKeywords : List String :=
  ["paracetamol", "acetaminofén", "acetaminofen",
   "ibuprofeno", "aspirina", "antibiótico", "antibiotico",
   "medicamento", "pastilla", "tableta", "cápsula", "capsula",
   "jarabe", "gotas", "inyección", "inyeccion"]

/-- Model of _extract_medications: every keyword occurring in the lower-cased
text, in table order. -/
def extract_medications (text : String) : List String :=
  let textLower := lowerStr text.data
  medicationKeywords.filter (fun m => containsSub m.data textLower)

/-- Model of _extract_gender: masculine indicators first, feminine second. -/
def extract_gender (text : String) : Option String :=
  let textLower := lowerStr text.data
  if ["hombre", "masculino", "varón", "señor"].any (fun w => containsSub w.data textLower) then
    some "masculino"
  else if ["mujer", "femenino", "señora", "dama"].any (fun w => containsSub w.data textLower) then
    some "femenino"
  else none

/-- High-priority keyword list of _determine_priority. -/
def highPrioritySymptoms : List String :=
  ["dificultad para respirar", "dolor en el pecho", "pérdida de consciencia",
   "sangrado", "trauma", "accidente"]

/-- Medium-priority keyword list of _determine_priority. -/
def mediumPrioritySymptoms : List String :=
  ["fiebre alta", "dolor intenso", "vómitos persistentes", "diarrea severa"]

/-- Model of _determine_priority: strict cascade over the lower-cased text. -/
def determine_priority (text : String) : String :=
  let textLower := lowerStr text.data
  if highPrioritySymptoms.any (fun s => containsSub s.data textLower) then "alta"
  else if mediumPrioritySymptoms.any (fun s => containsSub s.data textLower) then "media"
  else "normal"

/-- Request-for-guidance phrases of _needs_follow_up. -/
def followUpIndicators : List String :=
  ["quiero saber", "necesito ayuda", "qué debo hacer",
   "cómo puedo", "cuándo debo", "dónde debo ir",
   "consulta", "cita", "seguimiento"]

/-- Model of _needs_follow_up: boolean OR over the indicator phrases. -/
def needs_follow_up (text : String) : Bool :=
  let textLower := lowerStr text.data
  followUpIndicators.any (fun w => containsSub w.data textLower)

/-- Leftmost match of a digits-then-literal age pattern such as
backslash-d+ backslash-s* followed by a literal (the pattern
for N años); returns the digit group. -/
def findNumThenLit (lit : List Char) : List Char → Option (List Char)
  | [] => none
  | c :: t =>
    if c.isDigit then
      let p := (c :: t).span Char.isDigit
      if hasPre lit (p.2.dropWhile isSpacePy) then some p.1
      else findNumThenLit lit t
    else findNumThenLit lit t

/-- Leftmost match of a literal-then-digits age pattern (edad N);
returns the digit group. -/
def findLitThenNum (lit : List Char) : List Char → Option (List Char)
  | [] => none
  | c :: t =>
    if hasPre lit (c :: t) then
      let rest := ((c :: t).drop lit.length).dropWhile isSpacePy
      let p := rest.span Char.isDigit
      if p.1.isEmpty then findLitThenNum lit t else some p.1
    else findLitThenNum lit t

/-- Leftmost match of a literal-digits-literal age pattern
(tengo N años, tiene N años); returns the digit group. -/
def findLitNumLit (pre post : List Char) : List Char → Option (List Char)
  | [] => none
  | c :: t =>
    if hasPre pre (c :: t) then
      let rest := ((c :: t).drop pre.length).dropWhile isSpacePy
      let p := rest.span Char.isDigit
      if p.1.isEmpty then findLitNumLit pre post t
      else if hasPre post (p.2.dropWhile isSpacePy) then some p.1
      else findLitNumLit pre post t
    else findLitNumLit pre post t

/-- Range acceptance of one matched age group: int(group) is returned
only when 0 < age < 120, otherwise the next pattern is tried. -/
def agePatResult (ds : Option (List Char)) : Option Nat :=
  match ds with
  | some d => let a := digitsToNat d; if 0 < a ∧ a < 120 then some a else none
  | none => none

/-- Model of _extract_age: the four ordered patterns over the lower-cased text,
first in-range match wins. -/
def extract_age (text : String) : Option Nat :=
  let tl := lowerStr text.data
  (agePatResult (findNumThenLit "años".data tl)).orElse (fun _ =>
  (agePatResult (findLitThenNum "edad".data tl)).orElse (fun _ =>
  (agePatResult (findLitNumLit "tengo".data "años".data tl)).orElse (fun _ =>
  agePatResult (findLitNumLit "tiene".data "años".data tl))))

/-- Greedy word group of the name patterns: the regex group
backslash-w+ (backslash-s+ backslash-w+)* takes a maximal run of word
characters and then as many whitespace-plus-word blocks as possible.
This worker collects the blocks after the initial word run. -/
def wordGroupAux : Nat → List Char → List Char
  | 0, _ => []
  | fuel + 1, l =>
    let p := l.span isSpacePy
    if p.1.isEmpty then []
    else
      match p.2 with
      | [] => []
      | c :: _ =>
        if isWordChar c then
          let q := p.2.span isWordChar
          p.1 ++ q.1 ++ wordGroupAux fuel q.2
        else []

/-- Whole greedy word group starting at a word character. -/
def wordGroupFrom (l : List Char) : List Char :=
  let p := l.span isWordChar
  p.1 ++ wordGroupAux (p.2.length + 1) p.2

/-- Leftmost occurrence of an introduction literal followed by a word
character; yields the greedy word group after the literal, as
re.search does for the name patterns. -/
def findIntro (lit : List Char) : List Char → Option (List Char)
  | [] => none
  | c :: t =>
    if hasPre lit (c :: t) then
      match (c :: t).drop lit.length with
      | d :: r =>
        if isWordChar d then some (wordGroupFrom (d :: r))
        else findIntro lit t
      | [] => findIntro lit t
    else findIntro lit t

/-- Alternatives of the first cleanup pattern of _extract_patient_name:
tengo, tiene, años, edad or a digit, checked at the head of the input.
The patterns are lower-case literals and the regex is case-sensitive. -/
def cutTailAlt (l : List Char) : Bool :=
  hasPre "tengo".data l || hasPre "tiene".data l || hasPre "años".data l ||
  hasPre "edad".data l ||
  (match l with
   | c :: _ => c.isDigit
   | [] => false)

/-- First cleanup substitution of _extract_patient_name: everything from
the leftmost whitespace run whose follower matches one of the
alternatives is removed (the pattern ends in dot-star-dollar). -/
def cutTail : List Char → List Char
  | [] => []
  | c :: t =>
    if isSpacePy c then
      (if cutTailAlt ((c :: t).dropWhile isSpacePy) then [] else c :: cutTail t)
    else c :: cutTail t

/-- Stop-word alternatives of the second cleanup pattern, in alternation
order; all lower-case, while the candidate name has been title-cased. -/
def nameStopWords : List (List Char) :=
  ["y".data, "desde".data, "hace".data, "tres".data, "días".data,
   "tengo".data, "fiebre".data, "dolor".data, "cabeza".data, "tos".data]

/-- Word-boundary test after a matched alternative. -/
def boundaryAfter (l : List Char) : Bool :=
  match l with
  | [] => true
  | c :: _ => !isWordChar c

/-- Second cleanup substitution of _extract_patient_name: every
occurrence of a stop word between word boundaries is removed; the
boundary before a match is judged on the original characters. -/
def removeStopWords : Nat → Option Char → List Char → List Char
  | 0, _, l => l
  | _ + 1, _, [] => []
  | fuel + 1, prev, c :: t =>
    let boundaryBefore :=
      match prev with
      | none => true
      | some p => !isWordChar p
    match (if boundaryBefore then
        nameStopWords.find? (fun w => hasPre w (c :: t) && boundaryAfter ((c :: t).drop w.length))
      else none) with
    | some w => removeStopWords fuel w.getLast? ((c :: t).drop w.length)
    | none => c :: removeStopWords fuel (some c) t

/-- Cleanup pipeline applied to one matched name group: title-casing,
the two substitutions with strips, then the length and token-count
acceptance test. -/
def cleanName (raw : List Char) : Option String :=
  let name1 := stripPy (cutTail (titlePy raw))
  let name2 := stripPy (removeStopWords (name1.length + 1) none name1)
  if 2 < name2.length ∧ (splitWs name2).length ≤ 4 then some ⟨name2⟩ else none

/-- Introduction literals of the six name patterns, in order. -/
def namePatternLits : List String :=
  ["mi nombre es ", "me llamo ", "soy ", "paciente ", "señor ", "señora "]

/-- Model of _extract_patient_name: ordered patterns over the lower-cased text;
the first pattern whose match survives the cleanup checks wins. -/
def extract_patient_name (text : String) : Option String :=
  let tl := lowerStr text.data
  namePatternLits.foldr
    (fun lit acc =>
      (match findIntro lit.data tl with
       | some raw => cleanName raw
       | none => none).orElse (fun _ => acc))
    none

/-- Separator class of the phone patterns: dash, dot or whitespace. -/
def isSepPy (c : Char) : Bool :=
  c = '-' || c = '.' || isSpacePy c

/-- Exactly n characters satisfying p, with the rest of the input. -/
def takeN : Nat → (Char → Bool) → List Char → Option (List Char × List Char)
  | 0, _, l => some ([], l)
  | _ + 1, _, [] => none
  | n + 1, p, c :: t =>
    if p c then
      match takeN n p t with
      | some (g, r) => some (c :: g, r)
      | none => none
    else none

/-- Optional separator followed by exactly n digits; the greedy optional
separator can only stand when digits follow it. -/
def sepDigits (n : Nat) (l : List Char) : Option (List Char × List Char) :=
  match l with
  | c :: t =>
    if isSepPy c then
      match takeN n Char.isDigit t with
      | some (d, r) => some (c :: d, r)
      | none => takeN n Char.isDigit l
    else takeN n Char.isDigit l
  | [] => none

/-- Dashed or plain ten-digit phone pattern match at one position. -/
def matchP1At (l : List Char) : Option (List Char) :=
  match takeN 3 Char.isDigit l with
  | none => none
  | some (d1, r1) =>
    match sepDigits 3 r1 with
    | none => none
    | some (g2, r2) =>
      match sepDigits 4 r2 with
      | none => none
      | some (g3, _) => some (d1 ++ g2 ++ g3)

/-- Bare ten-digit phone pattern match at one position. -/
def matchP2At (l : List Char) : Option (List Char) :=
  match takeN 10 Char.isDigit l with
  | none => none
  | some (d, _) => some d

/-- Body of the international phone pattern after the plus sign, with a
country code of exactly k digits. -/
def p3body (k : Nat) (t : List Char) : Option (List Char) :=
  match takeN k Char.isDigit t with
  | none => none
  | some (d1, r1) =>
    match sepDigits 3 r1 with
    | none => none
    | some (g2, r2) =>
      match sepDigits 3 r2 with
      | none => none
      | some (g3, r3) =>
        match sepDigits 4 r3 with
        | none => none
        | some (g4, _) => some ('+' :: d1 ++ g2 ++ g3 ++ g4)

/-- International phone pattern match at one position; the greedy
one-to-three digit country code tries three digits first. -/
def matchP3At (l : List Char) : Option (List Char) :=
  match l with
  | '+' :: t =>
    (p3body 3 t).orElse (fun _ => (p3body 2 t).orElse (fun _ => p3body 1 t))
  | _ => none

/-- Leftmost position where the given pattern matcher succeeds. -/
def scanFor (m : List Char → Option (List Char)) : List Char → Option (List Char)
  | [] => m []
  | c :: t => (m (c :: t)).orElse (fun _ => scanFor m t)

/-- Model of _extract_phone: the three ordered patterns over the raw text. -/
def extract_phone (text : String) : Option String :=
  ((scanFor matchP1At text.data).map (fun l => (⟨l⟩ : String))).orElse (fun _ =>
  ((scanFor matchP2At text.data).map (fun l => (⟨l⟩ : String))).orElse (fun _ =>
  (scanFor matchP3At text.data).map (fun l => (⟨l⟩ : String))))

/-- contact_info sub-dict of the extracted record. -/
structure ContactInfo where
  phone : Option String
  email : Option String
  address : Option String
deriving DecidableEq

/-- patient_info sub-dict of the extracted record. -/
structure PatientInfo where
  name : Option String
  age : Option Nat
  gender : Option String
  contact_info : ContactInfo
deriving DecidableEq

/-- medical_info sub-dict of the extracted record. -/
structure MedicalInfo where
  symptoms : List String
  medications : List String
  allergies : List String
  chronic_conditions : List String
  family_history : List String
  current_treatments : List String
deriving DecidableEq

/-- conversation_details sub-dict of the extracted record. -/
structure ConversationDetails where
  promoter_id : Option String
  conversation_date : String
  conversation_duration : Option Nat
  conversation_type : String
  follow_up_needed : Bool
  priority_level : String
deriving DecidableEq

/-- transcription sub-dict of the extracted record. -/
structure TranscriptionInfo where
  full_text : String
  language : String
  word_count : Nat
  character_count : Nat
  extraction_timestamp : String
deriving DecidableEq

/-- extracted_entities sub-dict of the extracted record. -/
structure ExtractedEntities where
  symptoms_detected : List String
  medications_mentioned : List String
  doctors_mentioned : List String
  hospitals_clinics : List String
  dates_mentioned : List String
  locations : List String
deriving DecidableEq

/-- The structured record extract_patient_info builds for storage. -/
structure PatientData where
  conversation_id : String
  transcription : TranscriptionInfo
  patient_info : PatientInfo
  medical_info : MedicalInfo
  conversation_details : ConversationDetails
  extracted_entities : ExtractedEntities
deriving DecidableEq

/-- extract_patient_info: none models the bare empty dict returned for
falsy input; otherwise the fully populated structured record. The
conversation id and the timestamp are injected parameters standing for
_generate_conversation_id() and datetime.now().isoformat(). -/
def extract_patient_info (convId now : String) (transcription : String) : Option PatientData :=
  if transcription = "" then none
  else
    let syms := extract_symptoms transcription
    let meds := extract_medications transcription
    some
      { conversation_id := convId
        transcription :=
          { full_text := transcription
            language := "es"
            word_count := (splitWs transcription.data).length
            character_count := transcription.length
            extraction_timestamp := now }
        patient_info :=
          { name := extract_patient_name transcription
            age := extract_age transcription
            gender := extract_gender transcription
            contact_info :=
              { phone := extract_phone transcription
                email := none
                address := none } }
        medical_info :=
          { symptoms := syms
            medications := meds
            allergies := []
            chronic_conditions := []
            family_history := []
            current_treatments := [] }
        conversation_details :=
          { promoter_id := none
            conversation_date := now
            conversation_duration := none
            conversation_type := "initial_contact"
            follow_up_needed := needs_follow_up transcription
            priority_level := determine_priority transcription }
        extracted_entities :=
          { symptoms_detected := syms
            medications_mentioned := meds
            doctors_mentioned := []
            hospitals_clinics := []
            dates_mentioned := []
            locations := [] } }

/-! ## Hybrid store (VectorStoreService and PatientService)

The Chroma collections are modelled as association lists of entries in
insertion order. The md5 hex digest used for document ids and the
datetime.now() timestamps are injected as parameters: the code uses both
only as opaque deterministic strings. Semantic embedding distances play
no role in any claim and are abstracted away from the query results.
-/

/-- Run of characters other than a dot, the greedy regex group
open-bracket-caret-dot-close-bracket-plus of the diagnosis patterns. -/
def nonDotRun (l : List Char) : List Char := (l.span (fun c => c != '.')).1

/-- Group of a diagnosis pattern of shape literal backslash-s* colon?
backslash-s* group, evaluated right after the literal. The backtracking
corner where the group would consist of the separator whitespace itself
is collapsed to that whitespace run, which strips to at most one
character and is rejected by the length check exactly as in Python. -/
def groupAfterOptColon (rest : List Char) : Option (List Char) :=
  match rest with
  | [] => none
  | c :: _ =>
    if c = '.' then none
    else
      let r1 := rest.dropWhile isSpacePy
      let r2 := match r1 with
        | ':' :: t => t.dropWhile isSpacePy
        | _ => r1
      let g := nonDotRun r2
      if g.isEmpty then some (nonDotRun rest) else some g

/-- Group of a diagnosis pattern of shape literal backslash-s+ group,
evaluated right after the literal; at least one whitespace character is
required. The same backtracking corner is collapsed as above. -/
def groupAfterSpaces1 (rest : List Char) : Option (List Char) :=
  match rest with
  | [] => none
  | c :: t =>
    if isSpacePy c then
      let g := nonDotRun ((c :: t).dropWhile isSpacePy)
      if g.isEmpty then
        let fb := nonDotRun t
        if fb.isEmpty then none else some fb
      else some g
    else none

/-- Leftmost occurrence of a diagnosis literal whose continuation
matches backslash-s* colon? backslash-s* group. -/
def findDiagColon (lit : List Char) : List Char → Option (List Char)
  | [] => none
  | c :: t =>
    if hasPre lit (c :: t) then
      match groupAfterOptColon ((c :: t).drop lit.length) with
      | some g => some g
      | none => findDiagColon lit t
    else findDiagColon lit t

/-- Leftmost occurrence of a diagnosis literal whose continuation
matches backslash-s+ group. -/
def findDiagSpace (lit : List Char) : List Char → Option (List Char)
  | [] => none
  | c :: t =>
    if hasPre lit (c :: t) then
      match groupAfterSpaces1 ((c :: t).drop lit.length) with
      | some g => some g
      | none => findDiagSpace lit t
    else findDiagSpace lit t

/-- Leftmost occurrence of literal backslash-s+ mid backslash-s+ group
(the sospecha de and indicativo de patterns). -/
def findDiagMid (lit mid : List Char) : List Char → Option (List Char)
  | [] => none
  | c :: t =>
    if hasPre lit (c :: t) then
      match (match (c :: t).drop lit.length with
        | d :: r =>
          if isSpacePy d then
            let r2 := (d :: r).dropWhile isSpacePy
            if hasPre mid r2 then groupAfterSpaces1 (r2.drop mid.length) else none
          else none
        | [] => none) with
      | some g => some g
      | none => findDiagMid lit mid t
    else findDiagMid lit mid t

/-- One alternative of the parece pattern: the literal alternative
followed by backslash-s+ and a non-empty group. Returns the matched
alternative text, which is what group(1) of that pattern denotes. -/
def pareceAlt (w : List Char) (r : List Char) : Option (List Char) :=
  if hasPre w r then
    match groupAfterSpaces1 (r.drop w.length) with
    | some _ => some w
    | none => none
  else none

/-- The que backslash-s+ es alternative of the parece pattern; the
matched text includes the actual whitespace between que and es. -/
def pareceQueEs (r : List Char) : Option (List Char) :=
  if hasPre "que".data r then
    let p := (r.drop 3).span isSpacePy
    if p.1.isEmpty then none
    else if hasPre "es".data p.2 then
      match groupAfterSpaces1 (p.2.drop 2) with
      | some _ => some ("que".data ++ p.1 ++ "es".data)
      | none => none
    else none
  else none

/-- Leftmost occurrence of the parece pattern; its first group is the
matched alternative (ser, que-es or tener), not the trailing text. -/
def findParece : List Char → Option (List Char)
  | [] => none
  | c :: t =>
    if hasPre "parece".data (c :: t) then
      match (match (c :: t).drop 6 with
        | d :: r =>
          if isSpacePy d then
            let r2 := (d :: r).dropWhile isSpacePy
            (pareceAlt "ser".data r2).orElse (fun _ =>
              (pareceQueEs r2).orElse (fun _ => pareceAlt "tener".data r2))
          else none
        | [] => none) with
      | some g => some g
      | none => findParece t
    else findParece t

/-- Length check and title-casing applied to one matched diagnosis
group: group(1).strip() is kept only when longer than three characters. -/
def diagTitleResult (g : Option (List Char)) : Option String :=
  match g with
  | some raw =>
    let d := stripPy raw
    if 3 < d.length then some ⟨titlePy d⟩ else none
  | none => none

/-- Symptom to first canonical diagnosis, in the dict order of
symptom_based_diagnosis. -/
def symptomDiagnosisTable : List (String × String) :=
  [("fiebre", "resfriado común"), ("dolor de cabeza", "migraña"),
   ("tos", "bronquitis"), ("dolor de garganta", "faringitis"),
   ("náuseas", "gastroenteritis"), ("diarrea", "gastroenteritis")]

/-- Model of _extract_diagnosis of VectorStoreService: explicit diagnosis
patterns in order, then the symptom table, then the pending sentinel. -/
def extract_diagnosis (text : String) : String :=
  if text = "" then ""
  else
    let tl := lowerStr text.data
    match (diagTitleResult (findDiagColon "diagnóstico".data tl)).orElse (fun _ =>
      (diagTitleResult (findDiagColon "diagnosis".data tl)).orElse (fun _ =>
      (diagTitleResult (findParece tl)).orElse (fun _ =>
      (diagTitleResult (findDiagSpace "posible".data tl)).orElse (fun _ =>
      (diagTitleResult (findDiagSpace "probable".data tl)).orElse (fun _ =>
      (diagTitleResult (findDiagMid "sospecha".data "de".data tl)).orElse (fun _ =>
      diagTitleResult (findDiagMid "indicativo".data "de".data tl))))))) with
    | some d => d
    | none =>
      match symptomDiagnosisTable.find? (fun kv => containsSub kv.1.data tl) with
      | some kv => "Posible " ++ kv.2 ++ " (basado en síntomas)"
      | none => "Diagnóstico pendiente"

/-- Python `x or d` for an optional string: None and the empty string
both fall back to the default. -/
def pyOrStr (v : Option String) (d : String) : String :=
  match v with
  | some s => if s = "" then d else s
  | none => d

/-- Python `x or d` for an optional number: None and zero both fall
back to the default. -/
def pyOrNat (v : Option Nat) (d : Nat) : Nat :=
  match v with
  | some n => if n = 0 then d else n
  | none => d

/-- Python `s or d` for a plain string. -/
def orStr (s d : String) : String := if s = "" then d else s

/-- Rendering of an optional string inside an f-string: None prints as
the four characters None. -/
def pyStrOpt (v : Option String) : String :=
  match v with
  | some s => s
  | none => "None"

/-- Rendering of an optional number inside an f-string. -/
def pyStrOptNat (v : Option Nat) : String :=
  match v with
  | some n => toString n
  | none => "None"

/-- The comma join used for the list fields of the documents. -/
def joinComma (l : List String) : String := String.intercalate ", " l

/-- Metadata row stored for one conversation by store_patient_data.
Every list-valued field is held in its json.dumps serialized form. -/
structure ConvMeta where
  patient_name : String
  patient_age : Nat
  patient_gender : String
  patient_phone : String
  diagnosis : String
  symptoms_list : String
  medications_list : String
  allergies_list : String
  chronic_conditions : String
  conversation_id : String
  conversation_date : String
  promoter_id : String
  priority_level : String
  follow_up_needed : Bool
  stored_at : String
  conversation_type : String
deriving DecidableEq

/-- The metadata dict literal of store_patient_data. The several
datetime.now() calls inside one ingestion are modelled as the single
timestamp now. -/
def conversationMetadata (now : String) (pd : PatientData) : ConvMeta :=
  { patient_name := pyOrStr pd.patient_info.name " "
    patient_age := pyOrNat pd.patient_info.age 0
    patient_gender := pyOrStr pd.patient_info.gender " "
    patient_phone := pyOrStr pd.patient_info.contact_info.phone " "
    diagnosis := orStr (extract_diagnosis pd.transcription.full_text) " "
    symptoms_list := dumps pd.medical_info.symptoms
    medications_list := dumps pd.medical_info.medications
    allergies_list := dumps pd.medical_info.allergies
    chronic_conditions := dumps pd.medical_info.chronic_conditions
    conversation_id := orStr pd.conversation_id " "
    conversation_date := orStr pd.conversation_details.conversation_date now
    promoter_id := pyOrStr pd.conversation_details.promoter_id " "
    priority_level := orStr pd.conversation_details.priority_level " "
    follow_up_needed := pd.conversation_details.follow_up_needed
    stored_at := now
    conversation_type := orStr pd.conversation_details.conversation_type " " }

/-- Metadata row stored for one patient profile by
store_patient_summary. total_conversations is the literal 1 of the
source dict. -/
structure PatMeta where
  patient_name : String
  patient_age : Nat
  patient_gender : String
  last_conversation_id : String
  total_conversations : Nat
  updated_at : String
deriving DecidableEq

/-- The patient_metadata dict literal of store_patient_summary. -/
def patientMetadata (now : String) (pd : PatientData) : PatMeta :=
  { patient_name := pyOrStr pd.patient_info.name " "
    patient_age := pyOrNat pd.patient_info.age 0
    patient_gender := pyOrStr pd.patient_info.gender " "
    last_conversation_id := orStr pd.conversation_id " "
    total_conversations := 1
    updated_at := now }

/-- Python-level metadata values, to state what the stored dicts may
contain: strings, numbers and booleans are the scalars Chroma accepts,
None and list values are the shapes the schema rules out. -/
inductive PyValue where
  | str (s : String)
  | int (n : Int)
  | bool (b : Bool)
  | noneV
  | listV (l : List String)
deriving DecidableEq

/-- Scalar test on a metadata value. -/
def PyValue.isScalar : PyValue → Bool
  | .str _ => true
  | .int _ => true
  | .bool _ => true
  | .noneV => false
  | .listV _ => false

/-- The conversation metadata dict as the key-value list the Python code
passes to the collection. -/
def ConvMeta.pairs (m : ConvMeta) : List (String × PyValue) :=
  [("patient_name", .str m.patient_name),
   ("patient_age", .int m.patient_age),
   ("patient_gender", .str m.patient_gender),
   ("patient_phone", .str m.patient_phone),
   ("diagnosis", .str m.diagnosis),
   ("symptoms_list", .str m.symptoms_list),
   ("medications_list", .str m.medications_list),
   ("allergies_list", .str m.allergies_list),
   ("chronic_conditions", .str m.chronic_conditions),
   ("conversation_id", .str m.conversation_id),
   ("conversation_date", .str m.conversation_date),
   ("promoter_id", .str m.promoter_id),
   ("priority_level", .str m.priority_level),
   ("follow_up_needed", .bool m.follow_up_needed),
   ("stored_at", .str m.stored_at),
   ("conversation_type", .str m.conversation_type)]

/-- The patient metadata dict as the key-value list the Python code
passes to the collection. -/
def PatMeta.pairs (m : PatMeta) : List (String × PyValue) :=
  [("patient_name", .str m.patient_name),
   ("patient_age", .int m.patient_age),
   ("patient_gender", .str m.patient_gender),
   ("last_conversation_id", .str m.last_conversation_id),
   ("total_conversations", .int m.total_conversations),
   ("updated_at", .str m.updated_at)]

/-- One stored row of a Chroma collection. -/
structure Entry (M : Type) where
  id : String
  meta : M
  doc : String
deriving DecidableEq

/-- A Chroma collection in insertion order. -/
abbrev Collection (M : Type) := List (Entry M)

/-- Presence test for an id. -/
def Collection.hasId {M : Type} (c : Collection M) (i : String) : Bool :=
  c.any (fun e => e.id = i)

/-- collection.count(). -/
def Collection.count {M : Type} (c : Collection M) : Nat := c.length

/-- collection.get(ids=[i]): the subset of rows carrying the id. -/
def Collection.getById {M : Type} (c : Collection M) (i : String) : Collection M :=
  c.filter (fun e => e.id = i)

/-- collection.update on an existing id: document and metadata of the
row are replaced in place. The code only calls it after a presence
check, so the NotFoundError contract case is unreachable here. -/
def Collection.updateRow {M : Type} (c : Collection M) (i : String) (m : M) (d : String) :
    Collection M :=
  c.map (fun e => if e.id = i then ⟨i, m, d⟩ else e)

/-- Effects on the two collections, for the frame claims. -/
inductive StoreOp where
  | addConv (id : String)
  | addPat (id : String)
  | updatePat (id : String)
deriving DecidableEq

/-- The two collections threaded through one ingestion. -/
structure StoreState where
  conversations : Collection ConvMeta
  patients : Collection PatMeta
deriving DecidableEq

/-- The patient summary document f-string of store_patient_summary,
whitespace as in the source. -/
def patientSummaryText (pd : PatientData) (nm : String) : String :=
  "\n            Paciente: " ++ nm ++
  "\n            Edad: " ++ pyStrOptNat pd.patient_info.age ++ " años" ++
  "\n            Género: " ++ pyStrOpt pd.patient_info.gender ++
  "\n            Síntomas principales: " ++ joinComma pd.medical_info.symptoms ++
  "\n            Medicamentos: " ++ joinComma pd.medical_info.medications ++
  "\n            Última conversación: " ++ pd.conversation_details.conversation_date ++
  "\n            "

/-- store_patient_summary of PatientService: nothing happens for a
falsy patient name; otherwise the profile row keyed by the hash of the
name is replaced when present and created when absent. The unused
doc_id parameter of the source is kept. The md5 hex digest is the
injected hash parameter. -/
def store_patient_summary (hash : String → String) (now : String)
    (patients : Collection PatMeta) (pd : PatientData) (_docId : String) :
    Collection PatMeta × List StoreOp :=
  match pd.patient_info.name with
  | none => (patients, [])
  | some nm =>
    if nm = "" then (patients, [])
    else
      let summaryText := patientSummaryText pd nm
      let meta := patientMetadata now pd
      let pid := "patient_" ++ hash nm
      if patients.hasId pid then
        (patients.updateRow pid meta summaryText, [.updatePat pid])
      else
        (patients ++ [⟨pid, meta, summaryText⟩], [.addPat pid])

/-- Model of _generate_embedding_text: the unstructured document rendered for
the semantic embedding, whitespace as in the source f-string, finally
stripped. The dict-get defaults of the source are dead code for records
produced by extract_patient_info, whose keys are always present; a None
value prints as None. -/
def embeddingText (pd : PatientData) : String :=
  let core :=
    "INFORMACIÓN DEL PACIENTE:\n" ++
    "        Paciente " ++ pyStrOpt pd.patient_info.name ++ " de " ++
      pyStrOptNat pd.patient_info.age ++ " años, \n" ++
    "        género " ++ pyStrOpt pd.patient_info.gender ++ ".\n" ++
    "        \n" ++
    "        SÍNTOMAS Y CONTEXTO CONVERSACIONAL:\n" ++
    "        El paciente presenta: " ++ joinComma pd.medical_info.symptoms ++ "\n" ++
    "        \n" ++
    "        CONTEXTO MÉDICO:\n" ++
    "        Medicamentos mencionados: " ++ joinComma pd.medical_info.medications ++ "\n" ++
    "        Alergias conocidas: " ++ joinComma pd.medical_info.allergies ++ "\n" ++
    "        Condiciones crónicas: " ++ joinComma pd.medical_info.chronic_conditions ++ "\n" ++
    "        \n" ++
    "        TRANSCRIPCIÓN COMPLETA DE LA CONVERSACIÓN:\n" ++
    "        " ++ pd.transcription.full_text ++ "\n" ++
    "        \n" ++
    "        OBSERVACIONES Y CONTEXTO:\n" ++
    "        Prioridad de atención: " ++ pd.conversation_details.priority_level ++ "\n" ++
    "        Tipo de conversación: " ++ pd.conversation_details.conversation_type ++ "\n" ++
    "        Necesita seguimiento: " ++
      (if pd.conversation_details.follow_up_needed then "Sí" else "No") ++ "\n" ++
    "        Promotor: " ++ pyStrOpt pd.conversation_details.promoter_id ++ "\n" ++
    "        Fecha de la conversación: " ++ pd.conversation_details.conversation_date ++ "\n" ++
    "        \n" ++
    "        ANÁLISIS CONTEXTUAL:\n" ++
    "        Este paciente se encuentra en una consulta de " ++
      pd.conversation_details.conversation_type ++ " \n" ++
    "        con síntomas que sugieren " ++
      extract_diagnosis pd.transcription.full_text ++ "."
  ⟨stripPy core.data⟩

/-- The unique document id of _generate_id: md5 over conversation id,
patient name (None prints as None) and timestamp. -/
def generatedId (hash : String → String) (now : String) (pd : PatientData) : String :=
  hash (pd.conversation_id ++ "_" ++ pyStrOpt pd.patient_info.name ++ "_" ++ now)

/-- store_patient_data of VectorStoreService: builds the generated id
from the md5 of conversation id, name and timestamp, adds exactly one
row to the conversations collection (a duplicate id raises and
propagates, as the source re-raises every storage failure), then hands
the record to store_patient_summary. Returns the new state, the effect
trace and the document id. -/
def store_patient_data (hash : String → String) (now : String)
    (st : StoreState) (pd : PatientData) :
    Except String (StoreState × List StoreOp × String) :=
  let docId := generatedId hash now pd
  let meta := conversationMetadata now pd
  let docText := embeddingText pd
  if st.conversations.hasId docId then .error "DuplicateIDError"
  else
    let p := store_patient_summary hash now st.patients pd docId
    .ok (⟨st.conversations ++ [⟨docId, meta, docText⟩], p.1⟩,
      .addConv docId :: p.2, docId)

/-! ## Query engine (SearchService)

Every search method wraps its collection query in a try-except that
returns the empty list on any storage failure. The backend value below
separates the reachable collection from the unreachable one whose every
query raises. The embedding-distance ranking of a reachable query is
external to this embedding: results keep insertion order, which is
exact whenever the filter selects at most n_results rows. The reported
rank distance plays no role in any claim and is omitted from the hits.
-/

/-- A collection as seen by a search method: reachable or unreachable
(any operation on it raises). -/
inductive Backend (M : Type) where
  | up (c : Collection M)
  | down

/-- One formatted search result, as the dict each search method builds
from ids, metadatas and documents. -/
structure Hit (M : Type) where
  id : String
  metadata : M
  document : String
deriving DecidableEq

/-- collection.query: the where-predicate filters, n_results bounds. -/
def queryC {M : Type} (c : Collection M) (wh : Entry M → Bool) (n : Nat) : List (Entry M) :=
  (c.filter wh).take n

/-- Formatting loop shared by all search methods. -/
def formatHits {M : Type} (l : List (Entry M)) : List (Hit M) :=
  l.map (fun e => ⟨e.id, e.meta, e.doc⟩)

/-- search_similar_patients: no metadata predicate, pure similarity. -/
def search_similar_patients (b : Backend ConvMeta) (_query : String) (n : Nat) :
    List (Hit ConvMeta) :=
  match b with
  | .down => []
  | .up c => formatHits (queryC c (fun _ => true) n)

/-- search_by_patient_name: substring containment of the name in the
patient_name metadata field. -/
def search_by_patient_name (b : Backend ConvMeta) (patient_name : String) (n : Nat) :
    List (Hit ConvMeta) :=
  match b with
  | .down => []
  | .up c => formatHits (queryC c (fun e => strIn patient_name e.meta.patient_name) n)

/-- search_by_symptoms: the where filter names the key symptoms, which
no stored metadata row carries, so no row ever satisfies it. -/
def search_by_symptoms (b : Backend ConvMeta) (_symptoms : List String) (n : Nat) :
    List (Hit ConvMeta) :=
  match b with
  | .down => []
  | .up c => formatHits (queryC c (fun _ => false) n)

/-- search_by_diagnosis: no metadata predicate. -/
def search_by_diagnosis (b : Backend ConvMeta) (_keywords : List String) (n : Nat) :
    List (Hit ConvMeta) :=
  match b with
  | .down => []
  | .up c => formatHits (queryC c (fun _ => true) n)

/-- search_by_date_range: inclusive lexicographic bounds on the
ISO-8601 conversation_date string. -/
def search_by_date_range (b : Backend ConvMeta) (startDate endDate : String) (n : Nat) :
    List (Hit ConvMeta) :=
  match b with
  | .down => []
  | .up c =>
    formatHits (queryC c
      (fun e => decide (startDate ≤ e.meta.conversation_date) &&
                decide (e.meta.conversation_date ≤ endDate)) n)

/-- search_by_priority_level: equality on priority_level. -/
def search_by_priority_level (b : Backend ConvMeta) (priority : String) (n : Nat) :
    List (Hit ConvMeta) :=
  match b with
  | .down => []
  | .up c => formatHits (queryC c (fun e => e.meta.priority_level = priority) n)

/-- search_by_promoter: equality on promoter_id. -/
def search_by_promoter (b : Backend ConvMeta) (promoterId : String) (n : Nat) :
    List (Hit ConvMeta) :=
  match b with
  | .down => []
  | .up c => formatHits (queryC c (fun e => e.meta.promoter_id = promoterId) n)

/-- The optional filters dict of search_complex_query. -/
structure ComplexFilters where
  symptoms : Option (List String)
  priority : Option String
  promoter_id : Option String
  patient_name : Option String
deriving DecidableEq

/-- The conjunction of where atoms search_complex_query builds: each
atom is added only when its filter key is present and truthy. -/
def complexWhere (filters : Option ComplexFilters) (e : Entry ConvMeta) : Bool :=
  match filters with
  | none => true
  | some f =>
    (match f.symptoms with
     | some syms => if syms.isEmpty then true else strIn (dumps syms) e.meta.symptoms_list
     | none => true) &&
    (match f.priority with
     | some p => if p = "" then true else e.meta.priority_level = p
     | none => true) &&
    (match f.promoter_id with
     | some p => if p = "" then true else e.meta.promoter_id = p
     | none => true) &&
    (match f.patient_name with
     | some p => if p = "" then true else strIn p e.meta.patient_name
     | none => true)

/-- search_complex_query: free-text query plus the conjunction of the
present filters. -/
def search_complex_query (b : Backend ConvMeta) (_query : String)
    (filters : Option ComplexFilters) (n : Nat) : List (Hit ConvMeta) :=
  match b with
  | .down => []
  | .up c => formatHits (queryC c (complexWhere filters) n)

/-- search_high_priority_patients: the priority equality shortcut. -/
def search_high_priority_patients (b : Backend ConvMeta) (n : Nat) : List (Hit ConvMeta) :=
  match b with
  | .down => []
  | .up c => formatHits (queryC c (fun e => e.meta.priority_level = "alta") n)

/-! ## Aggregation engine (PatientService.get_patient_summary) -/

/-- Python set insertion modelled on lists: membership is the meaningful
relation, iteration order of a Python set is arbitrary. -/
def insertNew (acc : List String) (x : String) : List String :=
  if acc.contains x then acc else acc ++ [x]

/-- set().update over a list of lists. -/
def unionAll (ls : List (List String)) : List String :=
  ls.foldl (fun acc l => l.foldl insertNew acc) []

/-- json.loads over one serialized list field of every hit; any parse
failure is the ValueError the summary except-branch catches. -/
def collectParsed (hits : List (Hit ConvMeta)) (f : ConvMeta → String) :
    Option (List (List String)) :=
  hits.foldr
    (fun h acc =>
      match loads (f h.metadata), acc with
      | some l, some ls => some (l :: ls)
      | _, _ => none)
    (some [])

/-- Stable insertion step for sorted(), structural so that the kernel
can evaluate it. -/
def insertSorted (x : String) : List String → List String
  | [] => [x]
  | y :: t => if decide (x ≤ y) then x :: y :: t else y :: insertSorted x t

/-- Python sorted() on a list of strings. -/
def sortStr (l : List String) : List String := l.foldr insertSorted []

/-- Largest element of a string list, max() of the conversation dates. -/
def maxStr (l : List String) : Option String :=
  l.foldl
    (fun acc s =>
      match acc with
      | none => some s
      | some m => some (if m ≤ s then s else m))
    none

/-- Smallest element of a string list, min() of the conversation dates. -/
def minStr (l : List String) : Option String :=
  l.foldl
    (fun acc s =>
      match acc with
      | none => some s
      | some m => some (if s ≤ m then s else m))
    none

/-- The summary dict get_patient_summary returns. For the not-found and
error outcomes the Python dict omits the medical keys; here they carry
empty defaults and found is false. -/
structure PatientSummary where
  patient_name : String
  found : Bool
  age : Nat
  gender : String
  phone : String
  total_conversations : Nat
  all_symptoms : List String
  all_medications : List String
  all_diagnoses : List String
  conversation_dates : List String
  last_conversation : Option String
  first_conversation : Option String
  priority_levels : List String
  follow_up_needed : Bool
  conversations : List (Hit ConvMeta)
deriving DecidableEq

/-- The summary returned when no conversation matches or the
aggregation raises. -/
def summaryNotFound (nm : String) : PatientSummary :=
  { patient_name := nm, found := false, age := 0, gender := "", phone := ""
    total_conversations := 0, all_symptoms := [], all_medications := []
    all_diagnoses := [], conversation_dates := [], last_conversation := none
    first_conversation := none, priority_levels := [], follow_up_needed := false
    conversations := [] }

/-- get_patient_summary of PatientService: retrieves up to 50 matching
conversation records through search_by_patient_name, then unions the
deserialized symptom and medication sets, the non-placeholder
diagnoses, the priority levels and the follow-up flags, and sorts the
conversation dates. An unreachable collection makes the inner search
return the empty list, so the result degrades to found false; a
deserialization failure lands in the except branch, also found false. -/
def get_patient_summary (b : Backend ConvMeta) (patient_name : String) : PatientSummary :=
  let conversations := search_by_patient_name b patient_name 50
  match conversations with
  | [] => summaryNotFound patient_name
  | first :: _ =>
    match collectParsed conversations (fun m => m.symptoms_list),
        collectParsed conversations (fun m => m.medications_list) with
    | some symLists, some medLists =>
      let dates := (conversations.map (fun h => h.metadata.conversation_date)).filter
        (fun d => d ≠ "")
      { patient_name := patient_name
        found := true
        age := first.metadata.patient_age
        gender := first.metadata.patient_gender
        phone := first.metadata.patient_phone
        total_conversations := conversations.length
        all_symptoms := unionAll symLists
        all_medications := unionAll medLists
        all_diagnoses :=
          ((conversations.filterMap
            (fun h =>
              if h.metadata.diagnosis ≠ "" ∧ h.metadata.diagnosis ≠ " " then
                some h.metadata.diagnosis
              else none)).foldl insertNew [])
        conversation_dates := sortStr dates
        last_conversation := maxStr dates
        first_conversation := minStr dates
        priority_levels :=
          (conversations.map (fun h => h.metadata.priority_level)).foldl insertNew []
        follow_up_needed := conversations.any (fun h => h.metadata.follow_up_needed)
        conversations := conversations }
    | _, _ => summaryNotFound patient_name

/-! ## Derived helpers and concrete fixtures used by the theorems -/

/-- Truthiness of the patient name, the guard of store_patient_summary. -/
def hasPatientName (pd : PatientData) : Bool :=
  match pd.patient_info.name with
  | some nm => decide (nm ≠ "")
  | none => false

/-- The conversation rows matching a patient name, the where filter of
search_by_patient_name applied to the whole collection. -/
def matchesFor (c : Collection ConvMeta) (nm : String) : Collection ConvMeta :=
  c.filter (fun e => strIn nm e.meta.patient_name)

/-- A concrete extracted record carrying a patient name, used as a test
input by witnesses and counterexamples. -/
def pdAna : PatientData :=
  { conversation_id := "conv_9"
    transcription :=
      { full_text := "me llamo Ana, tengo fiebre", language := "es", word_count := 5
        character_count := 26, extraction_timestamp := "T0" }
    patient_info :=
      { name := some "Ana", age := some 30, gender := none
        contact_info := { phone := none, email := none, address := none } }
    medical_info :=
      { symptoms := ["fiebre"], medications := [], allergies := [], chronic_conditions := []
        family_history := [], current_treatments := [] }
    conversation_details :=
      { promoter_id := none, conversation_date := "T0", conversation_duration := none
        conversation_type := "initial_contact", follow_up_needed := false
        priority_level := "normal" }
    extracted_entities :=
      { symptoms_detected := ["fiebre"], medications_mentioned := [], doctors_mentioned := []
        hospitals_clinics := [], dates_mentioned := [], locations := [] } }

/-- A second record for the same patient name with a different symptom
set, for the aggregation witnesses. -/
def pdAnaTos : PatientData :=
  { conversation_id := "conv_10"
    transcription :=
      { full_text := "me llamo Ana, tengo tos", language := "es", word_count := 5
        character_count := 23, extraction_timestamp := "T2" }
    patient_info :=
      { name := some "Ana", age := some 30, gender := none
        contact_info := { phone := none, email := none, address := none } }
    medical_info :=
      { symptoms := ["tos"], medications := [], allergies := [], chronic_conditions := []
        family_history := [], current_treatments := [] }
    conversation_details :=
      { promoter_id := none, conversation_date := "T2", conversation_duration := none
        conversation_type := "initial_contact", follow_up_needed := false
        priority_level := "normal" }
    extracted_entities :=
      { symptoms_detected := ["tos"], medications_mentioned := [], doctors_mentioned := []
        hospitals_clinics := [], dates_mentioned := [], locations := [] } }

/-- A record without a patient name, as extract_patient_info produces
for a transcript carrying no introduction phrase. -/
def pdHola : PatientData :=
  { conversation_id := "conv_1"
    transcription :=
      { full_text := "hola", language := "es", word_count := 1
        character_count := 4, extraction_timestamp := "T" }
    patient_info :=
      { name := none, age := none, gender := none
        contact_info := { phone := none, email := none, address := none } }
    medical_info :=
      { symptoms := [], medications := [], allergies := [], chronic_conditions := []
        family_history := [], current_treatments := [] }
    conversation_details :=
      { promoter_id := none, conversation_date := "T", conversation_duration := none
        conversation_type := "initial_contact", follow_up_needed := false
        priority_level := "normal" }
    extracted_entities :=
      { symptoms_detected := [], medications_mentioned := [], doctors_mentioned := []
        hospitals_clinics := [], dates_mentioned := [], locations := [] } }

/-- An existing profile row for the name Ana under the identity hash,
with a stored conversation counter of five. -/
def existingAnaProfile : Entry PatMeta :=
  { id := "patient_Ana"
    meta :=
      { patient_name := "Ana", patient_age := 30, patient_gender := " "
        last_conversation_id := "conv_0", total_conversations := 5, updated_at := "T0" }
    doc := "old summary" }

/-- Two stored conversation rows for the name Ana, with symptom sets
fiebre and tos, the aggregation example of the spec. -/
def c8pair : Collection ConvMeta :=
  [{ id := "id1", meta := conversationMetadata "T0" pdAna, doc := "d1" },
   { id := "id2", meta := conversationMetadata "T2" pdAnaTos, doc := "d2" }]

/-! ### Round-trip of dumps and loads -/

theorem hexVal_hexDigitChar : ∀ d : Nat, d < 16 → hexVal (hexDigitChar d) = some d := by
  decide

theorem decodeHex4_hex4 (n : Nat) (h : n < 65536) :
    decodeHex4 (hexDigitChar (n / 4096 % 16)) (hexDigitChar (n / 256 % 16))
      (hexDigitChar (n / 16 % 16)) (hexDigitChar (n % 16)) = some n := by
  have h1 := hexVal_hexDigitChar (n / 4096 % 16) (Nat.mod_lt _ (by norm_num))
  have h2 := hexVal_hexDigitChar (n / 256 % 16) (Nat.mod_lt _ (by norm_num))
  have h3 := hexVal_hexDigitChar (n / 16 % 16) (Nat.mod_lt _ (by norm_num))
  have h4 := hexVal_hexDigitChar (n % 16) (Nat.mod_lt _ (by norm_num))
  simp only [decodeHex4, h1, h2, h3, h4, Option.some.injEq]
  omega

theorem char_toNat_valid (c : Char) :
    c.toNat < 55296 ∨ (57343 < c.toNat ∧ c.toNat < 1114112) := c.valid

theorem char_eq_ofNat {c : Char} {n : Nat} (h : c.toNat = n) : c = Char.ofNat n := by
  subst h
  exact (Char.ofNat_toNat c).symm

theorem one_le_escapeChar_length (c : Char) : 1 ≤ (escapeChar c).length := by
  unfold escapeChar
  repeat' split
  all_goals simp

theorem length_le_flatMap_escape (s : List Char) :
    s.length ≤ (s.flatMap escapeChar).length := by
  induction s with
  | nil => simp
  | cons c s ih =>
    simp only [List.flatMap_cons, List.length_append, List.length_cons]
    have := one_le_escapeChar_length c
    omega

theorem parseEsc_u (a b c d : Char) (r : List Char) :
    parseEsc ('u' :: a :: b :: c :: d :: r) = parseU a b c d r := rfl

theorem parseU_bmp (n : Nat) (hv : n < 55296 ∨ 57343 < n) (h16 : n < 65536) (r : List Char) :
    parseU (hexDigitChar (n / 4096 % 16)) (hexDigitChar (n / 256 % 16))
      (hexDigitChar (n / 16 % 16)) (hexDigitChar (n % 16)) r = some (Char.ofNat n, r) := by
  simp only [parseU, decodeHex4_hex4 n h16]
  rw [if_neg (by omega), if_pos (by omega)]

theorem parsePair_hex (n m : Nat) (h16 : m < 65536) (hm : 56320 ≤ m ∧ m ≤ 57343) (r : List Char) :
    parsePair n ('\\' :: 'u' :: hexDigitChar (m / 4096 % 16) :: hexDigitChar (m / 256 % 16) ::
        hexDigitChar (m / 16 % 16) :: hexDigitChar (m % 16) :: r) =
      some (Char.ofNat (65536 + (n - 55296) * 1024 + (m - 56320)), r) := by
  simp only [parsePair, decodeHex4_hex4 m h16, and_self, if_true]
  split
  · rfl
  · omega

theorem parseStrF_backslash (f : Nat) (rest : List Char) :
    parseStrF (f + 1) ('\\' :: rest) =
      match parseEsc rest with
      | none => none
      | some (d, rest2) => (fun p => (d :: p.1, p.2)) <$> parseStrF f rest2 := rfl

theorem parseStrF_plain (f : Nat) (c : Char) (rest : List Char)
    (hq : c ≠ '"') (hb : c ≠ '\\') (h32 : ¬ c.toNat < 32) :
    parseStrF (f + 1) (c :: rest) = (fun p => (c :: p.1, p.2)) <$> parseStrF f rest := by
  simp only [parseStrF, if_neg hq, if_neg hb, if_neg h32]

theorem parseU_hi (n : Nat) (hn : 55296 ≤ n ∧ n ≤ 56319) (h16 : n < 65536) (r : List Char) :
    parseU (hexDigitChar (n / 4096 % 16)) (hexDigitChar (n / 256 % 16))
      (hexDigitChar (n / 16 % 16)) (hexDigitChar (n % 16)) r = parsePair n r := by
  simp only [parseU, decodeHex4_hex4 n h16]
  rw [if_pos hn]

/-- One produced escape is consumed back as the original character. -/
theorem parseStrF_escape_cons (c : Char) (f : Nat) (tail : List Char) :
    parseStrF (f + 1) (escapeChar c ++ tail) = (fun p => (c :: p.1, p.2)) <$> parseStrF f tail := by
  have hval := char_toNat_valid c
  by_cases hq : c = '"'
  · subst hq; rfl
  by_cases hb : c = '\\'
  · subst hb; rfl
  by_cases hn : c = '\n'
  · subst hn; rfl
  by_cases hr : c = '\r'
  · subst hr; rfl
  by_cases ht : c = '\t'
  · subst ht; rfl
  by_cases h8 : c = '\x08'
  · subst h8; rfl
  by_cases h12 : c = '\x0c'
  · subst h12; rfl
  by_cases hpr : 32 ≤ c.toNat ∧ c.toNat ≤ 126
  · have hesc : escapeChar c = [c] := by
      simp only [escapeChar, if_neg hq, if_neg hb, if_neg hn, if_neg hr, if_neg ht,
        if_neg h8, if_neg h12, if_pos hpr]
    rw [hesc, List.singleton_append]
    exact parseStrF_plain f c tail hq hb (by omega)
  by_cases h16 : c.toNat < 65536
  · have hesc : escapeChar c = '\\' :: 'u' :: hex4 c.toNat := by
      simp only [escapeChar, if_neg hq, if_neg hb, if_neg hn, if_neg hr, if_neg ht,
        if_neg h8, if_neg h12, if_neg hpr, if_pos h16]
    rw [hesc]
    rw [show ('\\' :: 'u' :: hex4 c.toNat) ++ tail =
      '\\' :: 'u' :: hexDigitChar (c.toNat / 4096 % 16) :: hexDigitChar (c.toNat / 256 % 16) ::
        hexDigitChar (c.toNat / 16 % 16) :: hexDigitChar (c.toNat % 16) :: tail from rfl]
    rw [parseStrF_backslash, parseEsc_u, parseU_bmp c.toNat (by omega) h16 tail]
    simp only [Char.ofNat_toNat]
  · have hesc : escapeChar c =
        ('\\' :: 'u' :: hex4 (55296 + (c.toNat - 65536) / 1024)) ++
        ('\\' :: 'u' :: hex4 (56320 + (c.toNat - 65536) % 1024)) := by
      simp only [escapeChar, if_neg hq, if_neg hb, if_neg hn, if_neg hr, if_neg ht,
        if_neg h8, if_neg h12, if_neg hpr, if_neg h16]
    rw [hesc]
    rw [show (('\\' :: 'u' :: hex4 (55296 + (c.toNat - 65536) / 1024)) ++
        ('\\' :: 'u' :: hex4 (56320 + (c.toNat - 65536) % 1024))) ++ tail =
      '\\' :: 'u' :: hexDigitChar ((55296 + (c.toNat - 65536) / 1024) / 4096 % 16) ::
        hexDigitChar ((55296 + (c.toNat - 65536) / 1024) / 256 % 16) ::
        hexDigitChar ((55296 + (c.toNat - 65536) / 1024) / 16 % 16) ::
        hexDigitChar ((55296 + (c.toNat - 65536) / 1024) % 16) ::
        '\\' :: 'u' :: hexDigitChar ((56320 + (c.toNat - 65536) % 1024) / 4096 % 16) ::
        hexDigitChar ((56320 + (c.toNat - 65536) % 1024) / 256 % 16) ::
        hexDigitChar ((56320 + (c.toNat - 65536) % 1024) / 16 % 16) ::
        hexDigitChar ((56320 + (c.toNat - 65536) % 1024) % 16) :: tail from rfl]
    rw [parseStrF_backslash, parseEsc_u]
    rw [parseU_hi _ (by omega) (by omega)]
    rw [parsePair_hex _ _ (by omega) (by omega)]
    have harg : 65536 + (55296 + (c.toNat - 65536) / 1024 - 55296) * 1024 +
        (56320 + (c.toNat - 65536) % 1024 - 56320) = c.toNat := by omega
    simp only [harg, Char.ofNat_toNat]


theorem parseStrF_quote (f : Nat) (rest : List Char) :
    parseStrF (f + 1) ('"' :: rest) = some ([], rest) := rfl

/-- The serialized form of a string body parses back to exactly that
string, leaving the input after the closing quote untouched. -/
theorem parseStrF_escape (s : List Char) : ∀ (f : Nat) (rest : List Char), s.length < f →
    parseStrF f (s.flatMap escapeChar ++ '"' :: rest) = some (s, rest) := by
  induction s with
  | nil =>
    intro f rest hf
    cases f with
    | zero => omega
    | succ f =>
      simp only [List.flatMap_nil, List.nil_append]
      exact parseStrF_quote f rest
  | cons c s ih =>
    intro f rest hf
    cases f with
    | zero => omega
    | succ f =>
      simp only [List.flatMap_cons, List.append_assoc]
      rw [parseStrF_escape_cons, ih f rest (by simp only [List.length_cons] at hf; omega)]
      rfl

theorem skipWs_not_ws {c : Char} (h : isJsonWs c = false) (l : List Char) :
    skipWs (c :: l) = c :: l := by
  simp [skipWs, List.dropWhile_cons, h]

theorem skipWs_ws {c : Char} (h : isJsonWs c = true) (l : List Char) :
    skipWs (c :: l) = skipWs l := by
  simp [skipWs, List.dropWhile_cons, h]

theorem two_le_encodeStr_length (s : List Char) : 2 ≤ (encodeStr s).length := by
  simp [encodeStr]

theorem length_le_dumpsBody : ∀ Ls : List (List Char), Ls.length ≤ (dumpsBody Ls).length
  | [] => by simp [dumpsBody]
  | [s] => by
    have := two_le_encodeStr_length s
    simp only [dumpsBody, List.length_cons, List.length_nil]
    omega
  | s :: t :: rest => by
    have h1 := two_le_encodeStr_length s
    have h2 := length_le_dumpsBody (t :: rest)
    simp only [List.length_cons] at h2
    simp only [dumpsBody, List.length_append, List.length_cons]
    omega

theorem parseItemsF_ws_cons (f : Nat) {c : Char} (h : isJsonWs c = true) (l : List Char) :
    parseItemsF (f + 1) (c :: l) = parseItemsF (f + 1) l := by
  simp only [parseItemsF, skipWs_ws h]

theorem parseTail_close (recurse : List Char → Option (List (List Char) × List Char))
    (s rest : List Char) : parseTail recurse s (']' :: rest) = some ([s], rest) := rfl

theorem parseTail_comma (recurse : List Char → Option (List (List Char) × List Char))
    (s r3 : List Char) :
    parseTail recurse s (',' :: r3) =
      match recurse r3 with
      | some (ss, r4) => some (s :: ss, r4)
      | none => none := rfl

theorem parseItemsF_quote (f : Nat) (r : List Char) :
    parseItemsF (f + 1) ('"' :: r) =
      match parseStrF (r.length + 1) r with
      | none => none
      | some (s, r2) => parseTail (fun l3 => parseItemsF f l3) s r2 := rfl

/-- The serialized body of a non-empty array parses back to exactly its
elements, consuming the closing bracket. -/
theorem parseItemsF_dumpsBody : ∀ (Ls : List (List Char)) (f : Nat) (rest : List Char),
    Ls ≠ [] → Ls.length ≤ f →
    parseItemsF f (dumpsBody Ls ++ ']' :: rest) = some (Ls, rest) := by
  intro Ls
  induction Ls with
  | nil => intro f rest hne _; exact absurd rfl hne
  | cons s Ls ih =>
    intro f rest _ hf
    cases f with
    | zero => simp at hf
    | succ f =>
      have hstr : ∀ X : List Char,
          parseStrF ((s.flatMap escapeChar ++ '"' :: X).length + 1)
            (s.flatMap escapeChar ++ '"' :: X) = some (s, X) := by
        intro X
        refine parseStrF_escape s _ X ?_
        have := length_le_flatMap_escape s
        simp only [List.length_append, List.length_cons]
        omega
      cases Ls with
      | nil =>
        rw [show dumpsBody [s] ++ ']' :: rest =
          '"' :: (s.flatMap escapeChar ++ '"' :: (']' :: rest)) from by
            simp [dumpsBody, encodeStr]]
        rw [parseItemsF_quote, hstr (']' :: rest)]
        exact parseTail_close (fun l3 => parseItemsF f l3) s rest
      | cons t Ls =>
        rw [show dumpsBody (s :: t :: Ls) ++ ']' :: rest =
          '"' :: (s.flatMap escapeChar ++ '"' ::
            (',' :: ' ' :: (dumpsBody (t :: Ls) ++ ']' :: rest))) from by
            simp [dumpsBody, encodeStr]]
        rw [parseItemsF_quote, hstr (',' :: ' ' :: (dumpsBody (t :: Ls) ++ ']' :: rest))]
        show parseTail (fun l3 => parseItemsF f l3) s
          (',' :: ' ' :: (dumpsBody (t :: Ls) ++ ']' :: rest)) = some (s :: t :: Ls, rest)
        rw [parseTail_comma]
        cases f with
        | zero => simp at hf
        | succ f =>
          have hws : parseItemsF (f + 1) (' ' :: (dumpsBody (t :: Ls) ++ ']' :: rest)) =
              parseItemsF (f + 1) (dumpsBody (t :: Ls) ++ ']' :: rest) :=
            parseItemsF_ws_cons f (by decide) _
          simp only [hws, ih (f + 1) rest (by simp)
            (by simp only [List.length_cons] at hf ⊢; omega)]

theorem stringMk_data (s : String) : (⟨s.data⟩ : String) = s := rfl

theorem map_mk_map_data (M : List String) :
    (M.map String.data).map (fun l => (⟨l⟩ : String)) = M := by
  induction M with
  | nil => rfl
  | cons a M ihM => simp only [List.map_cons, ihM, stringMk_data]

theorem dumpsBody_head : ∀ (x : List Char) (xs : List (List Char)),
    ∃ t, dumpsBody (x :: xs) = '"' :: t := by
  intro x xs
  cases xs with
  | nil => exact ⟨_, rfl⟩
  | cons t ts => exact ⟨_, rfl⟩

theorem loads_cons_eq (X : List Char) :
    loads ⟨'[' :: X⟩ =
      match skipWs X with
      | [] => none
      | d :: r2 =>
        if d = ']' then (if skipWs r2 = [] then some [] else none)
        else
          match parseItemsF (X.length + 1) X with
          | some (ss, r3) => if skipWs r3 = [] then some (ss.map (⟨·⟩)) else none
          | none => none := rfl

/-- Round-trip law of the serializer pair: json.loads inverts json.dumps
on every list of strings. -/
theorem loads_dumps (L : List String) : loads (dumps L) = some L := by
  cases L with
  | nil => rfl
  | cons s L' =>
    show loads ⟨'[' :: (dumpsBody ((s :: L').map String.data) ++ [']'])⟩ = some (s :: L')
    rw [loads_cons_eq]
    simp only [List.map_cons]
    obtain ⟨t, ht⟩ := dumpsBody_head s.data (L'.map String.data)
    rw [show skipWs (dumpsBody (s.data :: L'.map String.data) ++ [']']) = '"' :: (t ++ [']'])
      from by rw [ht]; exact skipWs_not_ws (by decide) _]
    show (if ('"' : Char) = ']' then (if skipWs (t ++ [']']) = [] then some [] else none)
      else
        match parseItemsF ((dumpsBody (s.data :: L'.map String.data) ++ [']']).length + 1)
            (dumpsBody (s.data :: L'.map String.data) ++ [']']) with
        | some (ss, r3) => if skipWs r3 = [] then some ((ss.map (⟨·⟩)) : List String) else none
        | none => none) = some (s :: L')
    rw [if_neg (show ¬ ('"' : Char) = ']' from by decide)]
    rw [parseItemsF_dumpsBody (s.data :: L'.map String.data) _ [] (by simp)
      (by
        have h1 := length_le_dumpsBody (s.data :: L'.map String.data)
        simp only [List.length_append]
        omega)]
    show (if skipWs [] = [] then
      some (((s.data :: L'.map String.data).map (fun l => (⟨l⟩ : String))) : List String)
      else none) = some (s :: L')
    rw [if_pos (show skipWs ([] : List Char) = [] from rfl)]
    have h := map_mk_map_data (s :: L')
    rw [List.map_cons] at h
    rw [h]

/-! ### Substring containment and set-union support lemmas -/

theorem hasPre_iff (n : List Char) : ∀ h : List Char, hasPre n h = true ↔ n <+: h := by
  induction n with
  | nil => intro h; simp [hasPre]
  | cons a as ih =>
    intro h
    cases h with
    | nil => simp [hasPre]
    | cons b bs =>
      simp only [hasPre, Bool.and_eq_true, decide_eq_true_eq, List.cons_prefix_cons, ih bs]

theorem containsSub_iff (n : List Char) : ∀ h : List Char, containsSub n h = true ↔ n <:+: h := by
  intro h
  induction h with
  | nil => simp [containsSub, List.isEmpty_iff]
  | cons c t ih =>
    simp only [containsSub, Bool.or_eq_true, hasPre_iff, ih, List.infix_cons_iff]

theorem containsSub_lowerStr {kw : List Char} (t : List Char)
    (hk : kw.map lowerChar = kw) (h : containsSub kw t = true) :
    containsSub kw (lowerStr t) = true := by
  rw [containsSub_iff] at h ⊢
  have h2 := List.IsInfix.map lowerChar h
  rwa [hk] at h2

theorem mem_insertNew (acc : List String) (x a : String) :
    a ∈ insertNew acc x ↔ a ∈ acc ∨ a = x := by
  by_cases hx : x ∈ acc
  · have hc : acc.contains x = true := by simpa using hx
    simp only [insertNew, hc, if_true]
    constructor
    · exact Or.inl
    · rintro (h | rfl)
      · exact h
      · exact hx
  · simp [insertNew, hx]

theorem mem_foldl_insertNew (l : List String) :
    ∀ (acc : List String) (a : String), a ∈ l.foldl insertNew acc ↔ a ∈ acc ∨ a ∈ l := by
  induction l with
  | nil => intro acc a; simp
  | cons x t ih =>
    intro acc a
    simp only [List.foldl_cons, ih, mem_insertNew, List.mem_cons]
    tauto

theorem mem_unionAll (ls : List (List String)) (a : String) :
    a ∈ unionAll ls ↔ ∃ l ∈ ls, a ∈ l := by
  suffices h : ∀ acc, a ∈ ls.foldl (fun acc l => l.foldl insertNew acc) acc ↔
      a ∈ acc ∨ ∃ l ∈ ls, a ∈ l by
    simpa [unionAll] using h []
  induction ls with
  | nil => intro acc; simp
  | cons x t ih =>
    intro acc
    simp only [List.foldl_cons, ih, mem_foldl_insertNew, List.mem_cons]
    constructor
    · rintro ((h | h) | ⟨l, hl, ha⟩)
      · exact Or.inl h
      · exact Or.inr ⟨x, Or.inl rfl, h⟩
      · exact Or.inr ⟨l, Or.inr hl, ha⟩
    · rintro (h | ⟨l, (rfl | hl), ha⟩)
      · exact Or.inl (Or.inl h)
      · exact Or.inl (Or.inr ha)
      · exact Or.inr ⟨l, hl, ha⟩

theorem collectParsed_some (f : ConvMeta → String) :
    ∀ hits : List (Hit ConvMeta), (∀ x ∈ hits, ∃ L, loads (f x.metadata) = some L) →
    collectParsed hits f = some (hits.map (fun x => (loads (f x.metadata)).getD [])) := by
  intro hits
  induction hits with
  | nil => intro _; rfl
  | cons a t ih =>
    intro h
    obtain ⟨L, hL⟩ := h a (List.mem_cons_self a t)
    have ht := ih (fun x hx => h x (List.mem_cons_of_mem a hx))
    simp only [collectParsed, List.foldr_cons] at ht ⊢
    rw [ht, hL]
    simp [hL]

theorem getById_updateRow {M : Type} (pid : String) (m : M) (d : String) (k : String)
    (c : Collection M) : ((Collection.updateRow c pid m d).getById k).length =
      ((c.getById k).length) := by
  have hid : ∀ e : Entry M,
      decide ((if e.id = pid then ({ id := pid, meta := m, doc := d } : Entry M) else e).id = k) =
      decide (e.id = k) := by
    intro e
    by_cases h : e.id = pid <;> simp [h]
  simp only [Collection.updateRow, Collection.getById, List.filter_map, List.length_map]
  congr 1
  refine List.filter_congr ?_
  intro e _
  simpa [Function.comp] using hid e

theorem getById_eq_nil_of_not_hasId {M : Type} (k : String) :
    ∀ c : Collection M, c.hasId k = false → c.getById k = [] := by
  intro c
  induction c with
  | nil => intro _; rfl
  | cons e t ih =>
    intro h
    simp only [Collection.hasId, List.any_cons, Bool.or_eq_false_iff] at h
    simp only [Collection.getById, List.filter_cons]
    rw [if_neg]
    · simpa [Collection.getById] using ih h.2
    · simpa using h.1

/-- Unfolding of store_patient_summary for a record with a truthy
patient name: update in place when the identity key is present, append
a fresh row when it is absent. -/
theorem store_patient_summary_spec (hash : String → String) (now : String)
    (patients : Collection PatMeta) (pd : PatientData) (docId nm : String)
    (hname : pd.patient_info.name = some nm) (hne : nm ≠ "") :
    (patients.hasId ("patient_" ++ hash nm) = true →
      store_patient_summary hash now patients pd docId =
        (patients.updateRow ("patient_" ++ hash nm) (patientMetadata now pd)
          (patientSummaryText pd nm), [.updatePat ("patient_" ++ hash nm)])) ∧
    (patients.hasId ("patient_" ++ hash nm) = false →
      store_patient_summary hash now patients pd docId =
        (patients ++ [⟨"patient_" ++ hash nm, patientMetadata now pd,
          patientSummaryText pd nm⟩], [.addPat ("patient_" ++ hash nm)])) := by
  constructor <;> intro h <;> simp [store_patient_summary, hname, hne, h]

/-! ### Claim theorems -/

/-- C1: serializing any list of strings (as store_patient_data does via
json.dumps into the metadata list fields) and deserializing on read (as
get_patient_summary does via json.loads) yields the same set of tokens;
indeed the very same list comes back, so the sets agree regardless of
order. -/
theorem C1_serialization_roundtrip :
    (∀ L : List String, ∃ M, loads (dumps L) = some M ∧ ∀ s, s ∈ M ↔ s ∈ L) ∧
    (∀ (now : String) (pd : PatientData),
      loads ((conversationMetadata now pd).symptoms_list) = some pd.medical_info.symptoms ∧
      loads ((conversationMetadata now pd).medications_list) = some pd.medical_info.medications) := by
  constructor
  · intro L
    exact ⟨L, loads_dumps L, fun s => Iff.rfl⟩
  · intro now pd
    exact ⟨loads_dumps pd.medical_info.symptoms, loads_dumps pd.medical_info.medications⟩

/-- C6: on the exact text of the claim the code extracts age 45 but no
patient name. The first pattern matches and yields the title-cased
candidate Juana De La Torre Tengo 45 Años; the first cleanup removes
only the numeric tail, the lower-case stop-word cleanup cannot match
the title-cased Tengo, so the candidate has five tokens and is
rejected, and no later pattern matches the text. -/
theorem C6_name_extraction_eval :
    extract_patient_name "mi nombre es Juana De La Torre tengo 45 años" = none ∧
    extract_age "mi nombre es Juana De La Torre tengo 45 años" = some 45 := by
  constructor <;> decide

/-- C7: priority determination is the strict ordered cascade over the
lower-cased transcript: any high-priority keyword yields alta, else any
medium-priority keyword yields media, else normal; in particular any
text containing dolor en el pecho yields alta. -/
theorem C7_priority_cascade (text : String) :
    (highPrioritySymptoms.any (fun s => containsSub s.data (lowerStr text.data)) = true →
      determine_priority text = "alta") ∧
    (highPrioritySymptoms.any (fun s => containsSub s.data (lowerStr text.data)) = false →
      mediumPrioritySymptoms.any (fun s => containsSub s.data (lowerStr text.data)) = true →
      determine_priority text = "media") ∧
    (highPrioritySymptoms.any (fun s => containsSub s.data (lowerStr text.data)) = false →
      mediumPrioritySymptoms.any (fun s => containsSub s.data (lowerStr text.data)) = false →
      determine_priority text = "normal") ∧
    (containsSub "dolor en el pecho".data text.data = true →
      determine_priority text = "alta") := by
  refine ⟨?_, ?_, ?_, ?_⟩
  · intro h
    simp [determine_priority, h]
  · intro h1 h2
    simp [determine_priority, h1, h2]
  · intro h1 h2
    simp [determine_priority, h1, h2]
  · intro h
    have h2 : containsSub "dolor en el pecho".data (lowerStr text.data) = true :=
      containsSub_lowerStr text.data (by decide) h
    have h3 : highPrioritySymptoms.any
        (fun s => containsSub s.data (lowerStr text.data)) = true := by
      rw [List.any_eq_true]
      exact ⟨"dolor en el pecho", by decide, h2⟩
    simp [determine_priority, h3]

theorem C7_witness : determine_priority "hoy tengo dolor en el pecho y algo de tos" = "alta" :=
  (C7_priority_cascade "hoy tengo dolor en el pecho y algo de tos").2.2.2 (by decide)

/-- C9: when the underlying collection is unreachable (every collection
operation raises), each search method lands in its except branch and
returns the empty result list instead of propagating the exception. -/
theorem C9_search_degrades_to_empty (q nm sd ed p pid : String) (syms kws : List String)
    (filters : Option ComplexFilters) (n : Nat) :
    search_similar_patients .down q n = [] ∧
    search_by_patient_name .down nm n = [] ∧
    search_by_symptoms .down syms n = [] ∧
    search_by_diagnosis .down kws n = [] ∧
    search_by_date_range .down sd ed n = [] ∧
    search_by_priority_level .down p n = [] ∧
    search_by_promoter .down pid n = [] ∧
    search_complex_query .down q filters n = [] ∧
    search_high_priority_patients .down n = [] :=
  ⟨rfl, rfl, rfl, rfl, rfl, rfl, rfl, rfl, rfl⟩

/-- C10: every metadata dict written by store_patient_data and
store_patient_summary holds only scalar values; the list-valued medical
fields are stored as their json.dumps serializations, and absent
optional fields are encoded as the one-space string or zero, never as
None or a structured value. -/
theorem C10_metadata_scalars (now : String) (pd : PatientData) :
    (∀ kv ∈ (conversationMetadata now pd).pairs, kv.2.isScalar = true) ∧
    (∀ kv ∈ (patientMetadata now pd).pairs, kv.2.isScalar = true) ∧
    (conversationMetadata now pd).pairs.lookup "symptoms_list" =
      some (.str (dumps pd.medical_info.symptoms)) ∧
    (conversationMetadata now pd).pairs.lookup "medications_list" =
      some (.str (dumps pd.medical_info.medications)) ∧
    (conversationMetadata now pd).pairs.lookup "allergies_list" =
      some (.str (dumps pd.medical_info.allergies)) ∧
    (conversationMetadata now pd).pairs.lookup "chronic_conditions" =
      some (.str (dumps pd.medical_info.chronic_conditions)) ∧
    (pd.patient_info.name = none →
      (conversationMetadata now pd).pairs.lookup "patient_name" = some (.str " ") ∧
      (patientMetadata now pd).pairs.lookup "patient_name" = some (.str " ")) ∧
    (pd.patient_info.age = none →
      (conversationMetadata now pd).pairs.lookup "patient_age" = some (.int 0) ∧
      (patientMetadata now pd).pairs.lookup "patient_age" = some (.int 0)) ∧
    (pd.patient_info.gender = none →
      (conversationMetadata now pd).pairs.lookup "patient_gender" = some (.str " ")) ∧
    (pd.patient_info.contact_info.phone = none →
      (conversationMetadata now pd).pairs.lookup "patient_phone" = some (.str " ")) := by
  refine ⟨?_, ?_, rfl, rfl, rfl, rfl, ?_, ?_, ?_, ?_⟩
  · intro kv h
    fin_cases h <;> rfl
  · intro kv h
    fin_cases h <;> rfl
  · intro h
    constructor <;>
      simp [conversationMetadata, patientMetadata, ConvMeta.pairs, PatMeta.pairs,
        List.lookup, h, pyOrStr]
  · intro h
    constructor <;>
      simp [conversationMetadata, patientMetadata, ConvMeta.pairs, PatMeta.pairs,
        List.lookup, h, pyOrNat]
  · intro h
    simp [conversationMetadata, ConvMeta.pairs, List.lookup, h, pyOrStr]
  · intro h
    simp [conversationMetadata, ConvMeta.pairs, List.lookup, h, pyOrStr]

theorem C10_witness :
    (conversationMetadata "T" pdHola).pairs.lookup "patient_name" = some (.str " ") ∧
    (patientMetadata "T" pdHola).pairs.lookup "patient_name" = some (.str " ") ∧
    (conversationMetadata "T" pdHola).pairs.lookup "patient_age" = some (.int 0) ∧
    (conversationMetadata "T" pdHola).pairs.lookup "patient_gender" = some (.str " ") ∧
    (conversationMetadata "T" pdHola).pairs.lookup "patient_phone" = some (.str " ") := by
  obtain ⟨-, -, -, -, -, -, h7, h8, h9, h10⟩ := C10_metadata_scalars "T" pdHola
  exact ⟨(h7 rfl).1, (h7 rfl).2, (h8 rfl).1, h9 rfl, h10 rfl⟩

/-- C2 (amended): when the ingested record carries a truthy patient
name and the generated document id is fresh, store_patient_data
performs exactly one add to the conversations collection followed by
exactly one add or exactly one update to the patients collection, never
both, decided by the presence check on the identity key; when the name
is falsy, store_patient_summary returns early and no patients-collection
operation happens at all. -/
theorem C2_store_effects (hash : String → String) (now : String) (st : StoreState)
    (pd : PatientData) (nm : String)
    (hname : pd.patient_info.name = some nm) (hne : nm ≠ "")
    (hfresh : st.conversations.hasId (generatedId hash now pd) = false) :
    (store_patient_data hash now st pd).toOption.map (fun r => r.2.1) =
      some [.addConv (generatedId hash now pd),
        if st.patients.hasId ("patient_" ++ hash nm) then
          .updatePat ("patient_" ++ hash nm)
        else .addPat ("patient_" ++ hash nm)] := by
  by_cases hpat : st.patients.hasId ("patient_" ++ hash nm) = true
  · simp [store_patient_data, store_patient_summary, hname, hne, hfresh, hpat,
      Except.toOption]
  · rw [Bool.not_eq_true] at hpat
    simp [store_patient_data, store_patient_summary, hname, hne, hfresh, hpat,
      Except.toOption]

/-- C2 counterexample: the record extracted from the transcript hola
carries no patient name, and ingesting it adds one row to the
conversations collection but performs no operation at all on the
patients collection, against the exactly-one-add-or-update reading. -/
theorem C2_counterexample :
    (extract_patient_info "conv_1" "T" "hola").map
      (fun pd => (store_patient_data (fun s => s) "T" ⟨[], []⟩ pd).toOption.map
        (fun r => r.2.1)) = some (some [StoreOp.addConv "conv_1_None_T"]) := by
  decide

theorem C2_witness :
    (store_patient_data (fun s => s) "T1" ⟨[], []⟩ pdAna).toOption.map (fun r => r.2.1) =
      some [.addConv "conv_9_Ana_T1", .addPat "patient_Ana"] := by
  have h := C2_store_effects (fun s => s) "T1" ⟨[], []⟩ pdAna "Ana" rfl (by decide) (by decide)
  simpa using h

/-- C3 (amended): when a profile for the identity key already exists,
store_patient_summary replaces its document and metadata, but the
stored conversation counter is the literal one of the metadata dict,
not an increment of the previous value; when no profile exists it
creates one with counter one. -/
theorem C3_upsert_behavior (hash : String → String) (now : String)
    (patients : Collection PatMeta) (pd : PatientData) (docId nm : String)
    (hname : pd.patient_info.name = some nm) (hne : nm ≠ "") :
    (patients.hasId ("patient_" ++ hash nm) = true →
      store_patient_summary hash now patients pd docId =
        (patients.updateRow ("patient_" ++ hash nm) (patientMetadata now pd)
          (patientSummaryText pd nm), [.updatePat ("patient_" ++ hash nm)])) ∧
    (patients.hasId ("patient_" ++ hash nm) = false →
      store_patient_summary hash now patients pd docId =
        (patients ++ [⟨"patient_" ++ hash nm, patientMetadata now pd,
          patientSummaryText pd nm⟩], [.addPat ("patient_" ++ hash nm)])) ∧
    (patientMetadata now pd).total_conversations = 1 :=
  ⟨(store_patient_summary_spec hash now patients pd docId nm hname hne).1,
   (store_patient_summary_spec hash now patients pd docId nm hname hne).2, rfl⟩

theorem C3_witness :
    store_patient_summary (fun s => s) "T1" [existingAnaProfile] pdAna "d1" =
      (Collection.updateRow [existingAnaProfile] "patient_Ana" (patientMetadata "T1" pdAna)
        (patientSummaryText pdAna "Ana"), [.updatePat "patient_Ana"]) :=
  (C3_upsert_behavior (fun s => s) "T1" [existingAnaProfile] pdAna "d1" "Ana" rfl
    (by decide)).1 (by decide)

/-- C3 counterexample: an existing profile for Ana carries counter
five; after store_patient_summary runs for a new Ana record the stored
counter is one, not the six an increment would produce. -/
theorem C3_counterexample :
    existingAnaProfile.meta.total_conversations = 5 ∧
    ((store_patient_summary (fun s => s) "T1" [existingAnaProfile] pdAna "d1").1.getById
        "patient_Ana").map (fun e => e.meta.total_conversations) = [1] ∧
    (1 : Nat) ≠ 5 + 1 := by
  refine ⟨rfl, ?_, by decide⟩
  decide

/-- C4: at most one profile row exists per identity key: the bound is
preserved by every store_patient_summary call, and two upserts for the
same patient name starting from the empty patients collection leave its
count at one, not two. -/
theorem C4_profile_uniqueness (hash : String → String) (now now2 : String)
    (patients : Collection PatMeta) (pd pd2 : PatientData) (docId docId2 : String) :
    ((∀ k, (patients.getById k).length ≤ 1) →
      ∀ k, (((store_patient_summary hash now patients pd docId).1.getById k).length ≤ 1)) ∧
    (∀ nm, pd.patient_info.name = some nm → nm ≠ "" → pd2.patient_info.name = some nm →
      ((store_patient_summary hash now2
        (store_patient_summary hash now [] pd docId).1 pd2 docId2).1).count = 1) := by
  constructor
  · intro hinv k
    match hn : pd.patient_info.name with
    | none => simpa [store_patient_summary, hn] using hinv k
    | some nm =>
      by_cases hne : nm = ""
      · simpa [store_patient_summary, hn, hne] using hinv k
      by_cases hpat : patients.hasId ("patient_" ++ hash nm) = true
      · rw [(store_patient_summary_spec hash now patients pd docId nm hn hne).1 hpat]
        rw [getById_updateRow]
        exact hinv k
      · rw [Bool.not_eq_true] at hpat
        rw [(store_patient_summary_spec hash now patients pd docId nm hn hne).2 hpat]
        simp only [Collection.getById, List.filter_append]
        by_cases hk : k = "patient_" ++ hash nm
        · subst hk
          have hnil := getById_eq_nil_of_not_hasId ("patient_" ++ hash nm) patients hpat
          simp only [Collection.getById] at hnil
          simp [hnil]
        · have hneq : ¬((⟨"patient_" ++ hash nm, patientMetadata now pd,
              patientSummaryText pd nm⟩ : Entry PatMeta).id = k) := fun h => hk h.symm
          have hfil : (List.filter (fun e => decide (e.id = k))
              [(⟨"patient_" ++ hash nm, patientMetadata now pd,
                patientSummaryText pd nm⟩ : Entry PatMeta)]) = [] := by
            simp [hneq]
          rw [hfil]
          simpa using hinv k
  · intro nm h1 hne h2
    have hfirst := (store_patient_summary_spec hash now ([] : Collection PatMeta) pd docId nm h1
      hne).2 (by rfl)
    rw [hfirst]
    have hsecond := (store_patient_summary_spec hash now2
      ([] ++ [(⟨"patient_" ++ hash nm, patientMetadata now pd,
        patientSummaryText pd nm⟩ : Entry PatMeta)]) pd2 docId2 nm h2 hne).1
      (by simp [Collection.hasId])
    rw [hsecond]
    simp [Collection.count, Collection.updateRow]

theorem C4_witness :
    (((store_patient_summary (fun s => s) "T1" ([] : Collection PatMeta) pdAna
        "d1").1.getById "patient_Ana").length ≤ 1) ∧
    ((store_patient_summary (fun s => s) "T2"
      (store_patient_summary (fun s => s) "T1" [] pdAna "d1").1 pdAnaTos "d2").1).count = 1 :=
  ⟨(C4_profile_uniqueness (fun s => s) "T1" "T2" [] pdAna pdAnaTos "d1" "d2").1
      (fun k => by simp [Collection.getById]) "patient_Ana",
   (C4_profile_uniqueness (fun s => s) "T1" "T2" [] pdAna pdAnaTos "d1" "d2").2
      "Ana" rfl (by decide) rfl⟩

/-- C5 (amended): on empty (falsy) input extract_patient_info returns
the bare empty dict, carrying no structured fields at all, rather than
a populated record; on any non-empty input it returns a fully typed
record and never raises, and on a no-signal input such as hola that
record has every optional identity field absent and every list-valued
medical field empty. -/
theorem C5_extract_empty (convId now : String) :
    extract_patient_info convId now "" = none ∧
    ((extract_patient_info convId now "hola").map (fun pd =>
      (pd.patient_info.name, pd.patient_info.age, pd.patient_info.gender,
       pd.patient_info.contact_info.phone)) = some (none, none, none, none)) ∧
    ((extract_patient_info convId now "hola").map (fun pd =>
      (pd.medical_info.symptoms, pd.medical_info.medications, pd.medical_info.allergies,
       pd.medical_info.chronic_conditions, pd.medical_info.family_history,
       pd.medical_info.current_treatments)) = some ([], [], [], [], [], [])) ∧
    (∀ text : String, text ≠ "" → (extract_patient_info convId now text).isSome = true) := by
  refine ⟨rfl, rfl, rfl, ?_⟩
  intro text h
  simp [extract_patient_info, if_neg h]

theorem C5_witness : (extract_patient_info "c" "T" "x").isSome = true :=
  (C5_extract_empty "c" "T").2.2.2 "x" (by decide)

/-- C5 counterexample: on empty input the code returns the bare empty
dict, not a well-typed record with absent fields and empty lists. -/
theorem C5_counterexample : extract_patient_info "c" "T" "" = none := rfl

/-- C8 (amended): for a patient name whose matching stored conversation
records number at least one and at most the n_results cap of 50,
get_patient_summary returns found true, the symptom field equal to the
union of the deserialized symptom sets of all matching records, and
total_conversations equal to the number of matching records; with zero
matching records it returns found false instead of raising. -/
theorem C8_summary_aggregation (c : Collection ConvMeta) (nm : String) :
    (matchesFor c nm = [] → (get_patient_summary (.up c) nm).found = false) ∧
    ((∀ e ∈ matchesFor c nm, ∃ L, loads e.meta.symptoms_list = some L) →
     (∀ e ∈ matchesFor c nm, ∃ L, loads e.meta.medications_list = some L) →
     matchesFor c nm ≠ [] → (matchesFor c nm).length ≤ 50 →
      (get_patient_summary (.up c) nm).found = true ∧
      (get_patient_summary (.up c) nm).total_conversations = (matchesFor c nm).length ∧
      (∀ s, s ∈ (get_patient_summary (.up c) nm).all_symptoms ↔
        ∃ e ∈ matchesFor c nm, s ∈ (loads e.meta.symptoms_list).getD [])) := by
  have hq : search_by_patient_name (.up c) nm 50 = formatHits ((matchesFor c nm).take 50) := rfl
  constructor
  · intro h
    simp [get_patient_summary, hq, h, formatHits, summaryNotFound]
  · intro h1 h2 hne hbound
    have htake : (matchesFor c nm).take 50 = matchesFor c nm := List.take_of_length_le hbound
    have hp1 : ∀ x ∈ formatHits (matchesFor c nm), ∃ L, loads x.metadata.symptoms_list = some L := by
      intro x hx
      simp only [formatHits, List.mem_map] at hx
      obtain ⟨e, he, rfl⟩ := hx
      exact h1 e he
    have hp2 : ∀ x ∈ formatHits (matchesFor c nm),
        ∃ L, loads x.metadata.medications_list = some L := by
      intro x hx
      simp only [formatHits, List.mem_map] at hx
      obtain ⟨e, he, rfl⟩ := hx
      exact h2 e he
    have hc1 := collectParsed_some (fun m => m.symptoms_list) (formatHits (matchesFor c nm)) hp1
    have hc2 := collectParsed_some (fun m => m.medications_list) (formatHits (matchesFor c nm)) hp2
    cases hhits : formatHits (matchesFor c nm) with
    | nil =>
      exfalso
      apply hne
      simpa [formatHits] using hhits
    | cons x xs =>
      have hq2 : search_by_patient_name (.up c) nm 50 = x :: xs := by
        rw [hq, htake, hhits]
      rw [hhits] at hc1 hc2
      refine ⟨?_, ?_, ?_⟩
      · simp only [get_patient_summary, hq2, hc1, hc2]
      · simp only [get_patient_summary, hq2, hc1, hc2]
        have : (x :: xs).length = (formatHits (matchesFor c nm)).length := by rw [hhits]
        simpa [formatHits] using this
      · intro s
        simp only [get_patient_summary, hq2, hc1, hc2]
        rw [mem_unionAll]
        rw [← hhits]
        simp only [formatHits, List.map_map, List.mem_map, Function.comp]
        constructor
        · rintro ⟨l, ⟨e, he, rfl⟩, hs⟩
          exact ⟨e, he, hs⟩
        · rintro ⟨e, he, hs⟩
          exact ⟨_, ⟨e, he, rfl⟩, hs⟩

theorem C8_witness :
    (get_patient_summary (.up c8pair) "Ana").found = true ∧
    (get_patient_summary (.up c8pair) "Ana").total_conversations = 2 ∧
    "fiebre" ∈ (get_patient_summary (.up c8pair) "Ana").all_symptoms ∧
    "tos" ∈ (get_patient_summary (.up c8pair) "Ana").all_symptoms := by
  have hs1 : ∀ e ∈ matchesFor c8pair "Ana", (loads e.meta.symptoms_list).isSome = true := by
    decide
  have hs2 : ∀ e ∈ matchesFor c8pair "Ana", (loads e.meta.medications_list).isSome = true := by
    decide
  have h := (C8_summary_aggregation c8pair "Ana").2
    (fun e he => Option.isSome_iff_exists.mp (hs1 e he))
    (fun e he => Option.isSome_iff_exists.mp (hs2 e he))
    (by decide) (by decide)
  refine ⟨h.1, ?_, ?_, ?_⟩
  · rw [h.2.1]
    decide
  · exact (h.2.2 "fiebre").mpr
      ⟨⟨"id1", conversationMetadata "T0" pdAna, "d1"⟩, by decide, by decide⟩
  · exact (h.2.2 "tos").mpr
      ⟨⟨"id2", conversationMetadata "T2" pdAnaTos, "d2"⟩, by decide, by decide⟩

/-- C8 counterexample: with 51 matching stored records the summary
covers only the 50 retrieved ones, so total_conversations is 50 while
51 records match, against the all-matching-records reading. -/
theorem C8_counterexample :
    (matchesFor (List.replicate 51
      (⟨"e", conversationMetadata "T0" pdAna, "d"⟩ : Entry ConvMeta)) "Ana").length = 51 ∧
    (get_patient_summary
      (.up (List.replicate 51 (⟨"e", conversationMetadata "T0" pdAna, "d"⟩ : Entry ConvMeta)))
      "Ana").total_conversations = 50 := by
  constructor <;> decide

end ElSol
